import Mathlib

/-!
Shallow embedding of the reconciliation engine of the `ai-persistency-layer`
repository.

Paths are modelled as lists of segments; the filesystem is a partial map from
paths to file contents (directories carry no content: `mkdir` is a no-op in
this model, which is sound because `fs.mkdir` never touches file contents).
JSON (de)serialization of the metadata record is modelled as the identity on
parsed records; a missing or malformed metadata file is `none`.

Sources embedded below:
- `src/unnamed/part_004` - fs-utils of the migration CLI variant
  (`safeWriteFile`, `analyzePersistencyLayout`, `writeDomainFoundations`,
  `writeMigrationBrief`, `writeUpsertPrompt`, `writeMetadata`,
  `ensureBaseLayout`, ...);
- `src/unnamed/part_006` - constants, git-utils (`computeFreshnessMetrics`)
  and the migration CLI `run` / `applyMetadataDefaults` /
  `readPersistencyPointer`;
- `src/src/cli.ts` together with `src/unnamed/part_003` - the bootstrap CLI
  variant, whose `run` removes the whole layer before recreating it.
-/

/-! ### Characters and strings

`part_004` and `part_006` use JavaScript string primitives: `String.trim`,
`String.includes`, `String.startsWith`, `RegExp` global replacement and
single replacement.  They are embedded here on `List Char`.
-/

/-- JS whitespace (the characters relevant to this code base). -/
def isWsChar (c : Char) : Bool :=
  c = ' ' || c = '\n' || c = '\t' || c = '\r'

/-- The `String.prototype.trim`: strip whitespace from both ends. -/
def trimChars (cs : List Char) : List Char :=
  ((cs.dropWhile isWsChar).reverse.dropWhile isWsChar).reverse

/-- The `needle` occurs at the very start of `haystack`. -/
def leadsWith : List Char → List Char → Bool
  | [], _ => true
  | _ :: _, [] => false
  | a :: as, b :: bs => a = b && leadsWith as bs

/-- The `String.prototype.includes`: `needle` is a contiguous substring of
`haystack`. -/
def strIncludes (haystack needle : List Char) : Bool :=
  match haystack with
  | [] => needle.isEmpty
  | _ :: t => leadsWith needle haystack || strIncludes t needle

/-- The `String.prototype.includes` on `String`. -/
def includesStr (haystack needle : String) : Bool :=
  strIncludes haystack.data needle.data

/-- The `String.prototype.startsWith(".")` for directory names. -/
def dotStart (s : String) : Bool :=
  match s.data with
  | [] => false
  | c :: _ => c = '.'

/-- The `String.prototype.trim` on `String`. -/
def trimStr (s : String) : String :=
  String.mk (trimChars s.data)

/-- Global regexp replacement `.replace(/needle/g, repl)` (literal needle,
leftmost, non-overlapping). -/
def subAll (needle repl : List Char) : List Char → List Char
  | [] => []
  | c :: rest =>
    if _h : needle ≠ [] ∧ leadsWith needle (c :: rest) = true then
      repl ++ subAll needle repl (List.drop (needle.length - 1) rest)
    else
      c :: subAll needle repl rest
termination_by l => l.length
decreasing_by
  · simp only [List.length_drop, List.length_cons]
    omega
  · simp only [List.length_cons]
    omega

/-- Single (first-occurrence) replacement `.replace("needle", repl)`. -/
def subFirst (needle repl : List Char) : List Char → List Char
  | [] => []
  | c :: rest =>
    if needle ≠ [] ∧ leadsWith needle (c :: rest) = true then
      repl ++ List.drop (needle.length - 1) rest
    else
      c :: subFirst needle repl rest

/-- Global replacement on `String`. -/
def replaceAllStr (s needle repl : String) : String :=
  String.mk (subAll needle.data repl.data s.data)

/-- First-occurrence replacement on `String`. -/
def replaceFirstStr (s needle repl : String) : String :=
  String.mk (subFirst needle.data repl.data s.data)

/-- Split a string at `/\r?\n/` boundaries: split at every newline and strip
one trailing carriage return from each piece. -/
def splitLinesChars (cs : List Char) : List (List Char) :=
  match cs with
  | [] => [[]]
  | c :: rest =>
    let tail := splitLinesChars rest
    if c = '\n' then [] :: tail
    else
      match tail with
      | [] => [[c]]
      | p :: ps => (c :: p) :: ps

/-- Strip a single trailing carriage return (half of the `/\r?\n/` split). -/
def dropTrailingCR (cs : List Char) : List Char :=
  match cs.reverse with
  | '\r' :: rest => rest.reverse
  | _ => cs

/-- The `s.split(/\r?\n/)` on `String`. -/
def splitLinesStr (s : String) : List String :=
  (splitLinesChars s.data).map (fun cs => String.mk (dropTrailingCR cs))

/-! ### Paths and filesystem state -/

/-- A filesystem path, as a list of segments. -/
abbrev FPath := List String

/-- The text-file part of the filesystem: path to contents. -/
abbrev TextFS := FPath → Option String

/-- Write (create or overwrite) a text file. -/
def fsWrite (fs : TextFS) (p : FPath) (content : String) : TextFS :=
  fun q => if q = p then some content else fs q

/-- Remove one file if present (`fs.rm(path, { force: true })` without
`recursive`). -/
def fsRemove (fs : TextFS) (p : FPath) : TextFS :=
  fun q => if q = p then none else fs q

/-- The `base` is a (non-strict) segment prefix of `q`. -/
def underDir (base q : FPath) : Bool :=
  match base, q with
  | [], _ => true
  | _ :: _, [] => false
  | a :: as, b :: bs => a = b && underDir as bs

/-- The `fs.rm(path, { recursive: true, force: true })`: delete everything at or
below `base`. -/
def rmTree (fs : TextFS) (base : FPath) : TextFS :=
  fun q => if underDir base q then none else fs q

/-- The `fs.cp(src, dst, { recursive: true })`: every file under `src` reappears
under `dst`; other paths keep their contents (paths previously under `dst`
but absent from `src` are kept, as `cp` does not clear the target). -/
def cpTree (fs : TextFS) (src dst : FPath) : TextFS :=
  fun q =>
    if underDir dst q then
      match fs (src ++ q.drop dst.length) with
      | some c => some c
      | none => fs q
    else fs q

/-! ### `safeWriteFile` (`part_004` lines 114-134, identical in
`part_003` lines 25-45)

```
try { await fs.access(filePath);
      if (!force) return "skipped";
      await fs.writeFile(filePath, content); return "updated"; }
catch { }
await fs.writeFile(filePath, content); return "created";
```
-/

inductive WriteStatus where
  | created
  | skipped
  | updated
deriving DecidableEq, Repr

def safeWriteFile (fs : TextFS) (filePath : FPath) (content : String)
    (force : Bool) : WriteStatus × TextFS :=
  match fs filePath with
  | some _ =>
    if force then (WriteStatus.updated, fsWrite fs filePath content)
    else (WriteStatus.skipped, fs)
  | none => (WriteStatus.created, fsWrite fs filePath content)

/-- The state-only part of `safeWriteFile`. -/
def safeWrite (fs : TextFS) (filePath : FPath) (content : String)
    (force : Bool) : TextFS :=
  (safeWriteFile fs filePath content force).2

/-! ### Constants (`part_006` lines 1-8 and `src/src/cli.ts`)

`PERSISTENCY_POINTER_FILE` and `UPSERT_PROMPT_FILE` are imported by the
migration CLI from a constants module whose updated revision is not among
the source files; their values are modelled from the spec (section 6:
`<project-root>/.persistency-path`,
`<project-root>/persistency.upsert.prompt.<doc>`).
`PERSISTENCY_METADATA_FILE` is `.persistency-meta.json` as hard-coded in
`src/src/cli.ts`. -/

def DEFAULT_PERSISTENCY_DIR : String := "ai"

def DEFAULT_LOG_FILE : String := "_bootstrap.log"

def DEFAULT_BOOTSTRAP_FILE : String := "ai-bootstrap.mdc"

def DEFAULT_CONFIG_FILE : String := "ai-config.env"

def DEFAULT_START_SCRIPT : String := "ai-start.sh"

def PERSISTENCY_METADATA_FILE : String := ".persistency-meta.json"

def PERSISTENCY_POINTER_FILE : String := ".persistency-path"

def UPSERT_PROMPT_FILE : String := "persistency.upsert.prompt.mdc"

/-- The `DEFAULT_UPSERT_SCRIPT` is also missing from the constants file in the
sources; the spec only calls it the "upsert launcher script". No claim
depends on the literal name. -/
def DEFAULT_UPSERT_SCRIPT : String := "ai-upsert.sh"

/-! ### Layout analysis (`part_004` lines 38-112) -/

def CANONICAL_DOMAIN_DIRS : List String := ["functional", "technical", "ai-meta"]

structure LayoutAnalysis where
  directories : List String
  extraDirectories : List String
  referencedExtras : List String
  unreferencedExtras : List String
  missingCanonicalDirs : List String
  bootstrapFound : Bool
deriving DecidableEq, Repr

/-- The `for (const dir of extraDirectories)` loop of
`analyzePersistencyLayout` (lines 92-98): push each extra directory onto
`referencedExtras` when the bootstrap was found and contains its name,
otherwise onto `unreferencedExtras`, preserving order. -/
def classifyExtras (bootstrapFound : Bool) (bootstrapContent : String) :
    List String → List String × List String
  | [] => ([], [])
  | dir :: rest =>
    let (r, u) := classifyExtras bootstrapFound bootstrapContent rest
    if bootstrapFound && includesStr bootstrapContent dir then
      (dir :: r, u)
    else
      (r, dir :: u)

/-- The `analyzePersistencyLayout` (`part_004` lines 49-112).

Inputs model the two disk reads: `listing` is the result of
`fs.readdir(persistencyPath, { withFileTypes: true })` restricted to the
directory entries (`none` when `readdir` throws, i.e. the layer path does
not exist), and `bootstrapRead` is the result of reading
`<layer>/ai-bootstrap.mdc` (`none` when that read throws). -/
def analyzePersistencyLayout (listing : Option (List String))
    (bootstrapRead : Option String) : LayoutAnalysis :=
  match listing with
  | none =>
    { directories := []
      extraDirectories := []
      referencedExtras := []
      unreferencedExtras := []
      missingCanonicalDirs := CANONICAL_DOMAIN_DIRS
      bootstrapFound := false }
  | some dirs =>
    let extraDirectories := dirs.filter (fun dir =>
      !CANONICAL_DOMAIN_DIRS.contains dir && !dotStart dir &&
        dir ≠ "node_modules")
    let bootstrapFound := bootstrapRead.isSome
    let bootstrapContent := bootstrapRead.getD ""
    let (referencedExtras, unreferencedExtras) :=
      classifyExtras bootstrapFound bootstrapContent extraDirectories
    let missingCanonicalDirs :=
      CANONICAL_DOMAIN_DIRS.filter (fun dir => !dirs.contains dir)
    { directories := dirs
      extraDirectories := extraDirectories
      referencedExtras := referencedExtras
      unreferencedExtras := unreferencedExtras
      missingCanonicalDirs := missingCanonicalDirs
      bootstrapFound := bootstrapFound }

/-! ### Metadata model (`part_006` lines 22-38) -/

structure FreshnessMetrics where
  daysSinceUpdate : Int
  commitsSinceTruth : Int
deriving DecidableEq, Repr

/-- The `PersistencyMetadata` (`part_006` constants, lines 22-38). `updatedAt`
is an epoch timestamp in milliseconds (the ISO string of the source,
modelled numerically as dayjs parses it back to a number). -/
structure PersistencyMetadata where
  projectName : String
  projectPath : String
  agent : String
  defaultModel : Option String := none
  persistencyDir : String
  prodBranch : String
  snapshotRef : String
  updatedAt : Int
  installMethod : Option String := none
  assets : Option (List String) := none
  legacySources : Option (List String) := none
  intakeNotes : Option String := none
  freshness : Option FreshnessMetrics := none
deriving DecidableEq, Repr

/-- The metadata-record part of the filesystem: path to parsed record
(JSON round-trip modelled as identity, unreadable or malformed is `none`). -/
abbrev MetaFS := FPath → Option PersistencyMetadata

/-- Full persisted state: text files plus metadata records. -/
structure Store where
  text : TextFS
  meta : MetaFS

/-- The `safeWriteFile` lifted to the metadata map with `force = true`
(`writeMetadata` calls `safeWriteFile(metaPath, JSON.stringify(metadata),
true)`, which always writes). -/
def metaWrite (m : MetaFS) (p : FPath) (md : PersistencyMetadata) : MetaFS :=
  fun q => if q = p then some md else m q

/-! ### Freshness (`part_006` git-utils lines 106-123) -/

def MS_PER_DAY : Int := 86400000

/-- dayjs `absFloor`: round toward zero. -/
def absFloorDiv (n d : Int) : Int :=
  if n < 0 then -((-n) / d) else n / d

/-- The `dayjs().diff(updatedAt, "day")`: whole-day difference, truncated
toward zero. -/
def dayjsDiffDays (now updatedAt : Int) : Int :=
  absFloorDiv (now - updatedAt) MS_PER_DAY

/-- The `computeFreshnessMetrics` (`part_006` lines 106-123). `prevUpdatedAt`
is `none` when the metadata file is missing, malformed, or lacks an
`updatedAt` field (all the `catch` / falsy branches of the source), and
`some t` when a previous record with timestamp `t` was read. -/
def computeFreshnessMetrics (prevUpdatedAt : Option Int) (now : Int)
    (commitsSinceTruth : Int) : FreshnessMetrics :=
  match prevUpdatedAt with
  | some updatedAt =>
    { daysSinceUpdate := max (dayjsDiffDays now updatedAt) 0
      commitsSinceTruth := commitsSinceTruth }
  | none =>
    { daysSinceUpdate := 0, commitsSinceTruth := commitsSinceTruth }

/-! ### Path helpers (`node:path` as used by the sources)

Directory names supplied by flags / pointer files are modelled as single
path segments (the claims only exercise such names); `path.join(base, d)`
is `base ++ [d]` and `path.relative(base, target)` for `base` a prefix of
`target` is the joined remainder. -/

/-- The `path.relative(root, target)` when `root` is a prefix of `target`. -/
def relChild (root target : FPath) : String :=
  String.intercalate "/" (target.drop root.length)

/-- The `path.relative(root, target) || "."` (the `|| "."` fallback used by the
runs). -/
def relChildOrDot (root target : FPath) : String :=
  let r := relChild root target
  if r.data.isEmpty then "." else r

/-- Render a path as the string the source would hold (used for the
absolute-path fields of the config file; no claim depends on the exact
separator placement). -/
def joinPath (p : FPath) : String :=
  String.intercalate "/" p

/-! ### Pointer file and defaulting
(`part_006` lines 203-216 and 233-295) -/

/-- The `readPersistencyPointer` (`part_006` lines 203-216): read
`<project-root>/.persistency-path`, trim it, and return the value only when
it is non-empty. -/
def readPersistencyPointer (st : Store) (projectPath : FPath) :
    Option String :=
  match st.text (projectPath ++ [PERSISTENCY_POINTER_FILE]) with
  | none => none
  | some raw =>
    let trimmed := trimChars raw.data
    if trimmed.isEmpty then none else some (String.mk trimmed)

/-- The `for (const candidate of metadataCandidates)` loop of
`applyMetadataDefaults`: first readable metadata record wins. -/
def firstMeta (m : MetaFS) : List FPath → Option PersistencyMetadata
  | [] => none
  | p :: rest =>
    match m p with
    | some md => some md
    | none => firstMeta m rest

structure MetadataResolution where
  persistencyDir : String
  metadataFound : Bool
  metadata : Option PersistencyMetadata
deriving Repr

/-- The `applyMetadataDefaults` (`part_006` lines 233-295), restricted to the
resolution of the persistency directory (the hydration of the remaining
flag fields copies metadata fields into unset flags and does not feed back
into the directory choice). -/
def applyMetadataDefaults (st : Store) (baseProjectPath : FPath)
    (persistencyDirFlag : Option String) (persistencyDirProvided : Bool) :
    MetadataResolution :=
  let defaultPersistencyDir := persistencyDirFlag.getD DEFAULT_PERSISTENCY_DIR
  let pointerDir :=
    if persistencyDirProvided then none
    else readPersistencyPointer st baseProjectPath
  let candidatePersistencyDir :=
    if persistencyDirProvided then defaultPersistencyDir
    else pointerDir.getD defaultPersistencyDir
  let candidatePersistencyPath := baseProjectPath ++ [candidatePersistencyDir]
  let metadataCandidates :=
    [candidatePersistencyPath ++ [PERSISTENCY_METADATA_FILE],
     baseProjectPath ++ [PERSISTENCY_METADATA_FILE]]
  let metadata := firstMeta st.meta metadataCandidates
  { persistencyDir :=
      (metadata.map PersistencyMetadata.persistencyDir).getD
        candidatePersistencyDir
    metadataFound := metadata.isSome
    metadata := metadata }

/-- The `writeMetadata` (`part_004` lines 516-530): unconditionally write the
metadata record beside the layer (`safeWriteFile(..., true)` always
writes), then rewrite the pointer file at the project root. -/
def writeMetadata (st : Store) (projectPath persistencyPath : FPath)
    (metadata : PersistencyMetadata) : Store :=
  let metaPath := persistencyPath ++ [PERSISTENCY_METADATA_FILE]
  let pointerValue :=
    if metadata.persistencyDir.data.isEmpty then
      relChild projectPath persistencyPath
    else metadata.persistencyDir
  { text :=
      fsWrite st.text (projectPath ++ [PERSISTENCY_POINTER_FILE])
        (pointerValue ++ "\n")
    meta := metaWrite st.meta metaPath metadata }

/-! ### Rendering helpers (`part_004`) -/

/-- Template keys; braces written with hex escapes. -/
def TPL_PROJECT_NAME : String := "\x7b\x7bprojectName\x7d\x7d"

def TPL_AGENT : String := "\x7b\x7bagent\x7d\x7d"

def TPL_TRUTH_BRANCH : String := "\x7b\x7btruthBranch\x7d\x7d"

def TPL_TRUTH_COMMIT : String := "\x7b\x7btruthCommit\x7d\x7d"

def TPL_SNAPSHOT_PATH : String := "\x7b\x7bsnapshotPath\x7d\x7d"

def TPL_DAYS_SINCE_UPDATE : String := "\x7b\x7bdaysSinceUpdate\x7d\x7d"

def TPL_COMMITS_SINCE_TRUTH : String := "\x7b\x7bcommitsSinceTruth\x7d\x7d"

def TPL_SLO_DAYS : String := "\x7b\x7bsloDays\x7d\x7d"

def TPL_SLO_COMMITS : String := "\x7b\x7bsloCommits\x7d\x7d"

def TPL_DEFAULT_MODEL : String := "\x7b\x7bdefaultModel\x7d\x7d"

def TPL_EXISTING_LAYER : String := "\x7b\x7bexistingLayer\x7d\x7d"

def TPL_SOURCES_LIST : String := "\x7b\x7bsourcesList\x7d\x7d"

def TPL_INTAKE_NOTES : String := "\x7b\x7bintakeNotes\x7d\x7d"

def TPL_REFERENCED_EXTRAS : String := "\x7b\x7breferencedExtras\x7d\x7d"

def TPL_UNREFERENCED_EXTRAS : String := "\x7b\x7bunreferencedExtras\x7d\x7d"

def TPL_MISSING_CANONICAL : String := "\x7b\x7bmissingCanonical\x7d\x7d"

def TPL_PERSISTENCY_DIR : String := "\x7b\x7bpersistencyDir\x7d\x7d"

def TPL_CANONICAL_PATHS : String := "\x7b\x7bcanonicalPaths\x7d\x7d"

def TPL_EXISTING_EXTRAS : String := "\x7b\x7bexistingExtras\x7d\x7d"

def TPL_MIGRATION_BRIEF : String := "\x7b\x7bmigrationBrief\x7d\x7d"

def DEFAULT_ANTI_DRIFT_SLO_DAYS : Int := 7

def DEFAULT_ANTI_DRIFT_SLO_COMMITS : Int := 200

/-- The `bulletList` (`part_004` lines 275-278). -/
def bulletList (items : List String) (emptyFallback : String) : String :=
  if items.isEmpty then emptyFallback
  else String.intercalate "\n" (items.map (fun item => "- " ++ item))

/-- The intake-notes rendering shared by `writeMigrationBrief` and
`writeUpsertPrompt`: split into lines, trim, drop empties, bullet them,
with a fixed placeholder for the empty input. -/
def renderIntakeNotes (intakeNotes : String) : String :=
  if intakeNotes.data.isEmpty then "- _(no supplemental notes provided)_"
  else
    bulletList
      (((splitLinesStr intakeNotes).map trimStr).filter
        (fun line => !line.data.isEmpty))
      "- _(no supplemental notes provided)_"

/-- The `Array.from(new Set(...))`: deduplicate keeping first occurrences. -/
def dedupFirst : List String → List String
  | [] => []
  | x :: xs => x :: dedupFirst (xs.filter (fun y => y ≠ x))
termination_by l => l.length
decreasing_by
  simp only [List.length_cons]
  exact Nat.lt_succ_of_le (List.length_filter_le _ _)

/-! ### Writers (`part_004`, and the `part_003` variants used by
`src/src/cli.ts`)

Template bodies (`knowledge-base/...mdc`, `resources/...`) and the literal
bash script bodies are external inputs read from disk at run time; they are
passed in as parameters. -/

/-- The `writeDomainFoundations` (`part_004` lines 207-273): six conditional
writes (foundation and index for each canonical domain), all with the
caller's `force` flag. -/
def writeDomainFoundations (fs : TextFS) (persistencyPath : FPath)
    (projectName agent : String)
    (functionalTemplate technicalTemplate aiMetaTemplate : String)
    (functionalIndexTemplate technicalIndexTemplate aiMetaIndexTemplate :
      String)
    (force : Bool) : TextFS :=
  let functional := replaceAllStr functionalTemplate TPL_PROJECT_NAME
    projectName
  let technical := replaceAllStr technicalTemplate TPL_PROJECT_NAME
    projectName
  let aiMeta := replaceAllStr
    (replaceAllStr aiMetaTemplate TPL_PROJECT_NAME projectName)
    TPL_AGENT agent
  let fs1 := safeWrite fs (persistencyPath ++ ["functional", "foundation.mdc"])
    functional force
  let fs2 := safeWrite fs1 (persistencyPath ++ ["functional", "index.mdc"])
    functionalIndexTemplate force
  let fs3 := safeWrite fs2 (persistencyPath ++ ["technical", "foundation.mdc"])
    technical force
  let fs4 := safeWrite fs3 (persistencyPath ++ ["technical", "index.mdc"])
    technicalIndexTemplate force
  let fs5 := safeWrite fs4 (persistencyPath ++ ["ai-meta", "foundation.mdc"])
    aiMeta force
  safeWrite fs5 (persistencyPath ++ ["ai-meta", "index.mdc"])
    aiMetaIndexTemplate force

/-- The `writeDomainFoundations` of `part_003` (lines 118-160): the bootstrap
CLI variant writes only the three foundation documents. -/
def writeDomainFoundations3 (fs : TextFS) (persistencyPath : FPath)
    (projectName agent : String)
    (functionalTemplate technicalTemplate aiMetaTemplate : String)
    (force : Bool) : TextFS :=
  let functional := replaceAllStr functionalTemplate TPL_PROJECT_NAME
    projectName
  let technical := replaceAllStr technicalTemplate TPL_PROJECT_NAME
    projectName
  let aiMeta := replaceAllStr
    (replaceAllStr aiMetaTemplate TPL_PROJECT_NAME projectName)
    TPL_AGENT agent
  let fs1 := safeWrite fs (persistencyPath ++ ["functional", "foundation.mdc"])
    functional force
  let fs2 := safeWrite fs1 (persistencyPath ++ ["technical", "foundation.mdc"])
    technical force
  safeWrite fs2 (persistencyPath ++ ["ai-meta", "foundation.mdc"]) aiMeta force

/-- The `writeBootstrap` (`part_004` lines 183-205): conditional write of
`ai-bootstrap.mdc`. -/
def writeBootstrap (fs : TextFS) (persistencyPath : FPath)
    (template projectName agent truthBranch truthCommit : String)
    (metrics : FreshnessMetrics) (defaultModel : Option String)
    (force : Bool) : TextFS :=
  let content := replaceAllStr (replaceAllStr (replaceAllStr (replaceAllStr
    (replaceAllStr (replaceAllStr (replaceAllStr (replaceAllStr
      (replaceAllStr template TPL_PROJECT_NAME projectName)
      TPL_AGENT agent)
      TPL_TRUTH_BRANCH truthBranch)
      TPL_TRUTH_COMMIT truthCommit)
      TPL_DAYS_SINCE_UPDATE (toString metrics.daysSinceUpdate))
      TPL_COMMITS_SINCE_TRUTH (toString metrics.commitsSinceTruth))
      TPL_SLO_DAYS (toString DEFAULT_ANTI_DRIFT_SLO_DAYS))
      TPL_SLO_COMMITS (toString DEFAULT_ANTI_DRIFT_SLO_COMMITS))
      TPL_DEFAULT_MODEL (defaultModel.getD "unset")
  safeWrite fs (persistencyPath ++ [DEFAULT_BOOTSTRAP_FILE]) content force

/-- The `writeBootstrap` of `part_003` (lines 94-116): the bootstrap CLI
variant substitutes a snapshot path instead of the truth commit. -/
def writeBootstrap3 (fs : TextFS) (persistencyPath : FPath)
    (template projectName agent truthBranch snapshotPath : String)
    (metrics : FreshnessMetrics) (defaultModel : Option String)
    (force : Bool) : TextFS :=
  let content := replaceAllStr (replaceAllStr (replaceAllStr (replaceAllStr
    (replaceAllStr (replaceAllStr (replaceAllStr (replaceAllStr
      (replaceAllStr template TPL_PROJECT_NAME projectName)
      TPL_AGENT agent)
      TPL_TRUTH_BRANCH truthBranch)
      TPL_SNAPSHOT_PATH snapshotPath)
      TPL_DAYS_SINCE_UPDATE (toString metrics.daysSinceUpdate))
      TPL_COMMITS_SINCE_TRUTH (toString metrics.commitsSinceTruth))
      TPL_SLO_DAYS (toString DEFAULT_ANTI_DRIFT_SLO_DAYS))
      TPL_SLO_COMMITS (toString DEFAULT_ANTI_DRIFT_SLO_COMMITS))
      TPL_DEFAULT_MODEL (defaultModel.getD "unset")
  safeWrite fs (persistencyPath ++ [DEFAULT_BOOTSTRAP_FILE]) content force

/-- The content of `ai-config.env`
(`writeConfigEnv`, `part_004` lines 337-369). -/
def configEnvContent (projectPath persistencyPath : FPath)
    (projectName agent aiCmd : String) (defaultModel : Option String) :
    String :=
  let rel := fun (target : FPath) => relChildOrDot projectPath target
  let lines :=
    ["# AI Persistency Layer configuration",
     "PROJECT_NAME=" ++ projectName,
     "PROJECT_PATH=" ++ joinPath projectPath,
     "PERSISTENCY_DIR=" ++ joinPath persistencyPath,
     "AI_AGENT=" ++ agent,
     "AI_CMD=" ++ aiCmd,
     "PERSISTENCY_FUNCTIONAL=" ++ rel (persistencyPath ++ ["functional"]),
     "PERSISTENCY_TECHNICAL=" ++ rel (persistencyPath ++ ["technical"]),
     "PERSISTENCY_AI_META=" ++ rel (persistencyPath ++ ["ai-meta"])]
  let lines :=
    match defaultModel with
    | some model => lines ++ ["AI_DEFAULT_MODEL=" ++ model]
    | none => lines
  String.intercalate "\n" lines ++ "\n"

/-- The `writeConfigEnv` (`part_004` lines 337-369; `part_003` lines 175-207 is
textually the same): conditional write of `ai-config.env`. -/
def writeConfigEnv (fs : TextFS) (projectPath persistencyPath : FPath)
    (projectName agent aiCmd : String) (defaultModel : Option String)
    (force : Bool) : TextFS :=
  safeWrite fs (persistencyPath ++ [DEFAULT_CONFIG_FILE])
    (configEnvContent projectPath persistencyPath projectName agent aiCmd
      defaultModel)
    force

/-- The `writeStartScript` (`part_004` lines 371-437): the launcher body is a
literal bash text assembled from `aiCmd` (passed in here already
assembled); the write is unconditional (`safeWriteFile(..., true)`,
line 427). The trailing `chmod` touches permissions only. -/
def writeStartScript (fs : TextFS) (persistencyPath : FPath)
    (script : String) : TextFS :=
  safeWrite fs (persistencyPath ++ [DEFAULT_START_SCRIPT]) script true

/-- The `writeUpsertScript` (`part_004` lines 439-505): unconditional write of
the upsert launcher. -/
def writeUpsertScript (fs : TextFS) (persistencyPath : FPath)
    (script : String) : TextFS :=
  safeWrite fs (persistencyPath ++ [DEFAULT_UPSERT_SCRIPT]) script true

/-- The `writeStartScript` of `part_003` (lines 209-234): the bootstrap CLI
variant passes the caller's `force` flag instead. -/
def writeStartScript3 (fs : TextFS) (persistencyPath : FPath)
    (script : String) (force : Bool) : TextFS :=
  safeWrite fs (persistencyPath ++ [DEFAULT_START_SCRIPT]) script force

/-- The `writeAntiDriftScripts` (`part_004` lines 548-575): two conditional
writes under `<project>/scripts/ai/`. -/
def writeAntiDriftScripts (fs : TextFS) (projectPath : FPath)
    (persistencyRelDir : String) (checkTemplate refreshTemplate : String)
    (force : Bool) : TextFS :=
  let checkContent := replaceAllStr (replaceAllStr
    (replaceAllStr checkTemplate TPL_PERSISTENCY_DIR persistencyRelDir)
    TPL_SLO_DAYS (toString DEFAULT_ANTI_DRIFT_SLO_DAYS))
    TPL_SLO_COMMITS (toString DEFAULT_ANTI_DRIFT_SLO_COMMITS)
  let refreshContent :=
    replaceAllStr refreshTemplate TPL_PERSISTENCY_DIR persistencyRelDir
  let fs1 := safeWrite fs (projectPath ++ ["scripts", "ai", "check-stale.ts"])
    checkContent force
  safeWrite fs1 (projectPath ++ ["scripts", "ai", "refresh-layer.ts"])
    refreshContent force

/-- The `writeLogEntry` (`part_004` lines 507-514): append to
`_bootstrap.log` (`fs.appendFile` creates the file when missing). -/
def writeLogEntry (fs : TextFS) (persistencyPath : FPath)
    (stamp message : String) : TextFS :=
  let logPath := persistencyPath ++ [DEFAULT_LOG_FILE]
  let line := "[" ++ stamp ++ "] " ++ message ++ "\n"
  fsWrite fs logPath ((fs logPath).getD "" ++ line)

/-- The `writeLegacyImportManifest` (`part_003` lines 162-173): unconditional
write of `ai-meta/legacy-import.mdc` in the bootstrap CLI variant. -/
def writeLegacyImportManifest (fs : TextFS) (persistencyPath : FPath)
    (template : String) (sources : List String) : TextFS :=
  let list :=
    if sources.isEmpty then "- _(none detected)_: this is a fresh layer."
    else String.intercalate "\n" (sources.map (fun src => "- " ++ src))
  let content := replaceFirstStr template TPL_SOURCES_LIST list
  safeWrite fs (persistencyPath ++ ["ai-meta", "legacy-import.mdc"]) content
    true

/-! ### Migration brief and upsert prompt (`part_004` lines 280-335 and
577-641) -/

structure BriefContext where
  projectName : String
  agent : String
  existingLayer : String
  sources : List String
  intakeNotes : String
  referencedExtras : List String
  unreferencedExtras : List String
  missingCanonicalDirs : List String

/-- The rendered migration brief (`writeMigrationBrief` body). The three
global regexp replaces come first; the five remaining ones are
single-occurrence `String.replace` calls. -/
def renderMigrationBrief (template : String) (context : BriefContext) :
    String :=
  let uniqueSources := dedupFirst context.sources
  let list := bulletList uniqueSources "- _(no additional sources detected)_"
  let notes := renderIntakeNotes context.intakeNotes
  let referenced := bulletList context.referencedExtras "- _(none detected)_"
  let unreferenced := bulletList context.unreferencedExtras
    "- _(none detected)_"
  let missingCanonical := bulletList context.missingCanonicalDirs
    "- _(all canonical domains existed prior to migration)_"
  replaceFirstStr (replaceFirstStr (replaceFirstStr (replaceFirstStr
    (replaceFirstStr (replaceAllStr (replaceAllStr (replaceAllStr
      template TPL_PROJECT_NAME context.projectName)
      TPL_AGENT context.agent)
      TPL_EXISTING_LAYER context.existingLayer)
      TPL_SOURCES_LIST list)
      TPL_INTAKE_NOTES notes)
      TPL_REFERENCED_EXTRAS referenced)
      TPL_UNREFERENCED_EXTRAS unreferenced)
      TPL_MISSING_CANONICAL missingCanonical

/-- The `writeMigrationBrief` (`part_004` lines 280-335): unconditional write
(`safeWriteFile(..., true)`, line 334) of `ai-meta/migration-brief.mdc`. -/
def writeMigrationBrief (fs : TextFS) (persistencyPath : FPath)
    (template : String) (context : BriefContext) : TextFS :=
  safeWrite fs (persistencyPath ++ ["ai-meta", "migration-brief.mdc"])
    (renderMigrationBrief template context) true

structure UpsertContext where
  projectName : String
  agent : String
  layout : LayoutAnalysis
  intakeNotes : String
  migrationBriefRelPath : String

/-- The rendered upsert prompt (`writeUpsertPrompt` body,
`part_004` lines 588-636). -/
def renderUpsertPrompt (template : String) (persistencyRelDir : String)
    (context : UpsertContext) : String :=
  let canonicalPaths := String.intercalate "\n"
    (CANONICAL_DOMAIN_DIRS.map
      (fun dir => "- " ++ persistencyRelDir ++ "/" ++ dir))
  let referencedExtras := bulletList
    (context.layout.referencedExtras.map
      (fun dir => persistencyRelDir ++ "/" ++ dir))
    "- _(none detected)_"
  let unreferencedExtras := bulletList
    (context.layout.unreferencedExtras.map
      (fun dir => persistencyRelDir ++ "/" ++ dir))
    "- _(none detected)_"
  let missingCanonical := bulletList context.layout.missingCanonicalDirs
    "- _(all canonical domains already existed)_"
  let intakeNotes := renderIntakeNotes context.intakeNotes
  let existingExtras := bulletList
    (context.layout.extraDirectories.map
      (fun dir => persistencyRelDir ++ "/" ++ dir))
    "- _(none detected)_"
  let migrationBriefRef :=
    if 0 < context.migrationBriefRelPath.data.length then
      context.migrationBriefRelPath
    else persistencyRelDir ++ "/ai-meta/migration-brief.mdc"
  replaceAllStr (replaceAllStr (replaceAllStr (replaceAllStr (replaceAllStr
    (replaceAllStr (replaceAllStr (replaceAllStr (replaceAllStr
      (replaceAllStr template TPL_PROJECT_NAME context.projectName)
      TPL_AGENT context.agent)
      TPL_PERSISTENCY_DIR persistencyRelDir)
      TPL_CANONICAL_PATHS canonicalPaths)
      TPL_EXISTING_EXTRAS existingExtras)
      TPL_REFERENCED_EXTRAS referencedExtras)
      TPL_UNREFERENCED_EXTRAS unreferencedExtras)
      TPL_MISSING_CANONICAL missingCanonical)
      TPL_INTAKE_NOTES intakeNotes)
      TPL_MIGRATION_BRIEF migrationBriefRef

/-- The `writeUpsertPrompt` (`part_004` lines 577-641): unconditional write
(line 639) of the prompt at the project root; returns the prompt path. -/
def writeUpsertPrompt (fs : TextFS) (projectPath : FPath)
    (persistencyRelDir : String) (template : String)
    (context : UpsertContext) : TextFS × FPath :=
  let promptPath := projectPath ++ [UPSERT_PROMPT_FILE]
  (safeWrite fs promptPath
    (renderUpsertPrompt template persistencyRelDir context) true,
   promptPath)

/-! ### Backup, asset staging, legacy staging -/

/-- The `backupExistingLayer` (`part_004` lines 136-154): when the layer
exists, copy its whole tree to a timestamped sibling backup directory.
`layerExists` models the initial `fs.access(persistencyPath)` probe. -/
def backupExistingLayer (fs : TextFS) (persistencyPath projectPath : FPath)
    (baseName stamp : String) (layerExists : Bool) :
    TextFS × Option FPath :=
  if layerExists then
    let backupDir := projectPath ++ [baseName ++ "-backup", stamp]
    (cpTree fs persistencyPath backupDir, some backupDir)
  else (fs, none)

/-- One `--asset` argument: its resolved source path, its basename, and
whether `fs.access` succeeds on it. -/
structure AssetInput where
  src : FPath
  base : String
  found : Bool

/-- The `copyAssets` (`part_004` lines 156-181): best-effort per item; a
missing source is skipped with a warning. Returns the copied target
paths. -/
def copyAssets (fs : TextFS) (persistencyPath : FPath) :
    List AssetInput → TextFS × List FPath
  | [] => (fs, [])
  | a :: rest =>
    if a.found then
      let target := persistencyPath ++ ["ai-meta", "assets", a.base]
      let (fs2, copied) := copyAssets (cpTree fs a.src target)
        persistencyPath rest
      (fs2, target :: copied)
    else copyAssets fs persistencyPath rest

/-- The `if (options.prevLayer)` block of the migration `run`
(`part_006` lines 479-502; `src/src/cli.ts` lines 219-242 are textually
the same): when the import path exists, copy its tree under
`ai-meta/legacy/<stamp>` and append that directory's project-relative path
to `legacySources`; when it does not (or the copy fails), warn and
continue. The third component records whether the warning branch ran. -/
def stagePrevLayer (fs : TextFS) (projectPath persistencyPath : FPath)
    (prevLayer : Option FPath) (prevExists : Bool) (stamp : String)
    (legacySources : List String) : TextFS × List String × Bool :=
  match prevLayer with
  | none => (fs, legacySources, false)
  | some prev =>
    if prevExists then
      let legacyDir := persistencyPath ++ ["ai-meta", "legacy", stamp]
      (cpTree fs prev legacyDir,
       legacySources ++ [relChild projectPath legacyDir], false)
    else (fs, legacySources, true)

/-- The `legacySources.length > 1 ? legacySources.slice(1) : undefined`
(migration `run`, `part_006` lines 578-580). -/
def metadataLegacySources (legacySources : List String) :
    Option (List String) :=
  if 1 < legacySources.length then some (legacySources.drop 1) else none

/-! ### The bootstrap CLI `run` (`src/src/cli.ts` lines 146-351)

Only the filesystem effect is embedded; prompting, git probing, agent
install/auth and console output have no effect on the stores. The
`captureSnapshot` / `writeSnapshotFile` helpers are not among the source
files; they are modelled as a single write of a snapshot document under
`technical/snapshots/` (its name and content are inputs). -/

structure CliRunArgs where
  projectPath : FPath
  persistencyDir : String
  force : Bool
  keepBackup : Bool
  writeConfig : Bool
  yes : Bool
  logHistory : Bool
  layerExists : Bool
  prevLayer : Option FPath
  prevExists : Bool
  assets : List AssetInput
  projectName : String
  agent : String
  aiCmd : String
  defaultModel : Option String
  installMethod : Option String
  truthBranch : String
  snapshotCommit : String
  backupStamp : String
  legacyStamp : String
  logStamp : String
  nowMs : Int
  commitsSinceTruth : Int
  snapshotFile : String
  snapshotContent : String
  bootstrapTemplate : String
  functionalTemplate : String
  technicalTemplate : String
  aiMetaTemplate : String
  legacyManifestTemplate : String
  checkStaleTemplate : String
  refreshLayerTemplate : String
  startScript : String

/-- The `String.prototype.slice(0, 7)` for commit abbreviation. -/
def take7 (s : String) : String :=
  String.mk (s.data.take 7)

def cliRun (st : Store) (a : CliRunArgs) : Store :=
  let persistencyPath := a.projectPath ++ [a.persistencyDir]
  let previousMetadata :=
    st.meta (persistencyPath ++ [PERSISTENCY_METADATA_FILE])
  let daysSinceUpdate : Int :=
    match previousMetadata with
    | some m => max (dayjsDiffDays a.nowMs m.updatedAt) 0
    | none => 0
  let backupResult :=
    if !a.force && a.keepBackup then
      backupExistingLayer st.text persistencyPath a.projectPath
        a.persistencyDir a.backupStamp a.layerExists
    else (st.text, none)
  let fs1 := backupResult.1
  let legacySources1 :=
    match backupResult.2 with
    | some backupDir => [relChild a.projectPath backupDir]
    | none => []
  let fs2 := rmTree fs1 persistencyPath
  let staged := stagePrevLayer fs2 a.projectPath persistencyPath a.prevLayer
    a.prevExists a.legacyStamp legacySources1
  let fs3 := staged.1
  let legacySources2 := staged.2.1
  let copyResult := copyAssets fs3 persistencyPath a.assets
  let fs4 := copyResult.1
  let copiedAssets := copyResult.2
  let snapshotPath := persistencyPath ++ ["technical", "snapshots",
    a.snapshotFile]
  let fs5 := fsWrite fs4 snapshotPath a.snapshotContent
  let metrics : FreshnessMetrics :=
    { daysSinceUpdate := daysSinceUpdate
      commitsSinceTruth := a.commitsSinceTruth }
  let fs6 := writeDomainFoundations3 fs5 persistencyPath a.projectName
    a.agent a.functionalTemplate a.technicalTemplate a.aiMetaTemplate a.force
  let fs7 := writeBootstrap3 fs6 persistencyPath a.bootstrapTemplate
    a.projectName a.agent a.truthBranch (relChild a.projectPath snapshotPath)
    metrics a.defaultModel a.force
  let fs8 :=
    if a.writeConfig || a.yes then
      writeAntiDriftScripts
        (writeConfigEnv fs7 a.projectPath persistencyPath a.projectName
          a.agent a.aiCmd a.defaultModel a.force)
        a.projectPath (relChild a.projectPath persistencyPath)
        a.checkStaleTemplate a.refreshLayerTemplate a.force
    else fs7
  let fs9 := writeStartScript3 fs8 persistencyPath a.startScript a.force
  let fs10 := writeLegacyImportManifest fs9 persistencyPath
    a.legacyManifestTemplate legacySources2
  let metadata : PersistencyMetadata :=
    { projectName := a.projectName
      projectPath := joinPath a.projectPath
      agent := a.agent
      defaultModel := a.defaultModel
      persistencyDir := relChild a.projectPath persistencyPath
      prodBranch := a.truthBranch
      snapshotRef := a.snapshotCommit
      updatedAt := a.nowMs
      installMethod := a.installMethod
      assets :=
        some (copiedAssets.map (fun t => relChild a.projectPath t))
      legacySources :=
        if legacySources2.isEmpty then none else some legacySources2
      freshness := some metrics }
  let meta2 := metaWrite st.meta
    (persistencyPath ++ [PERSISTENCY_METADATA_FILE]) metadata
  let fs11 :=
    if a.logHistory then
      let t1 := writeLogEntry fs10 persistencyPath a.logStamp
        ("Refreshed by ai-persistency-layer on " ++ a.truthBranch ++
          " (commit " ++ take7 a.snapshotCommit ++ ")")
      if legacySources2.isEmpty then t1
      else
        writeLogEntry t1 persistencyPath a.logStamp
          ("Legacy sources to reconcile: " ++
            String.intercalate ", " legacySources2)
    else fsRemove fs10 (persistencyPath ++ [DEFAULT_LOG_FILE])
  { text := fs11, meta := meta2 }

/-! ### The migration CLI `run` (`part_006` lines 344-631)

This variant refuses to proceed when the layer path does not exist
(`process.exit(EXIT_CODES.INVALID_ARGS)`, lines 422-430), so the pipeline
below models the continuing case and the backup probe always succeeds.
Unlike the bootstrap CLI, it never removes the layer. `listing` is the
immediate-subdirectory listing of the layer used by
`analyzePersistencyLayout`; the bootstrap document is read from the text
store itself. -/

structure MigRunArgs where
  projectPath : FPath
  persistencyDir : String
  force : Bool
  keepBackup : Bool
  writeConfig : Bool
  yes : Bool
  logHistory : Bool
  prevLayer : Option FPath
  prevExists : Bool
  assets : List AssetInput
  projectName : String
  agent : String
  aiCmd : String
  defaultModel : Option String
  installMethod : Option String
  intakeNotes : String
  truthBranch : String
  truthCommit : String
  backupStamp : String
  legacyStamp : String
  logStamp : String
  nowMs : Int
  commitsSinceTruth : Int
  listing : Option (List String)
  bootstrapTemplate : String
  functionalTemplate : String
  technicalTemplate : String
  aiMetaTemplate : String
  functionalIndexTemplate : String
  technicalIndexTemplate : String
  aiMetaIndexTemplate : String
  briefTemplate : String
  upsertTemplate : String
  checkStaleTemplate : String
  refreshLayerTemplate : String
  startScript : String
  upsertScript : String

def migrationRun (st : Store) (a : MigRunArgs) : Store :=
  let persistencyPath := a.projectPath ++ [a.persistencyDir]
  let previousMetadata :=
    st.meta (persistencyPath ++ [PERSISTENCY_METADATA_FILE])
  let daysSinceUpdate : Int :=
    match previousMetadata with
    | some m => max (dayjsDiffDays a.nowMs m.updatedAt) 0
    | none => 0
  let intakeNotes := trimStr a.intakeNotes
  let layoutSnapshot := analyzePersistencyLayout a.listing
    (st.text (persistencyPath ++ [DEFAULT_BOOTSTRAP_FILE]))
  let legacySources0 := [relChildOrDot a.projectPath persistencyPath]
  let backupResult :=
    if !a.force && a.keepBackup then
      backupExistingLayer st.text persistencyPath a.projectPath
        a.persistencyDir a.backupStamp true
    else (st.text, none)
  let fs1 := backupResult.1
  let legacySources1 :=
    match backupResult.2 with
    | some backupDir =>
      legacySources0 ++ [relChild a.projectPath backupDir]
    | none => legacySources0
  let staged := stagePrevLayer fs1 a.projectPath persistencyPath a.prevLayer
    a.prevExists a.legacyStamp legacySources1
  let fs2 := staged.1
  let legacySources2 := staged.2.1
  let copyResult := copyAssets fs2 persistencyPath a.assets
  let fs3 := copyResult.1
  let copiedAssets := copyResult.2
  let metrics : FreshnessMetrics :=
    { daysSinceUpdate := daysSinceUpdate
      commitsSinceTruth := a.commitsSinceTruth }
  let fs4 := writeDomainFoundations fs3 persistencyPath a.projectName
    a.agent a.functionalTemplate a.technicalTemplate a.aiMetaTemplate
    a.functionalIndexTemplate a.technicalIndexTemplate
    a.aiMetaIndexTemplate a.force
  let fs5 := writeBootstrap fs4 persistencyPath a.bootstrapTemplate
    a.projectName a.agent a.truthBranch a.truthCommit metrics
    a.defaultModel a.force
  let fs6 :=
    if a.writeConfig || a.yes then
      writeAntiDriftScripts
        (writeConfigEnv fs5 a.projectPath persistencyPath a.projectName
          a.agent a.aiCmd a.defaultModel a.force)
        a.projectPath (relChild a.projectPath persistencyPath)
        a.checkStaleTemplate a.refreshLayerTemplate a.force
    else fs5
  let fs7 := writeStartScript fs6 persistencyPath a.startScript
  let fs8 := writeUpsertScript fs7 persistencyPath a.upsertScript
  let existingLayerRel := relChildOrDot a.projectPath persistencyPath
  let migrationBriefRelPath := relChild a.projectPath
    (persistencyPath ++ ["ai-meta", "migration-brief.mdc"])
  let fs9 := writeMigrationBrief fs8 persistencyPath a.briefTemplate
    { projectName := a.projectName
      agent := a.agent
      existingLayer := existingLayerRel
      sources := legacySources2.drop 1
      intakeNotes := intakeNotes
      referencedExtras := layoutSnapshot.referencedExtras
      unreferencedExtras := layoutSnapshot.unreferencedExtras
      missingCanonicalDirs := layoutSnapshot.missingCanonicalDirs }
  let promptResult := writeUpsertPrompt fs9 a.projectPath existingLayerRel
    a.upsertTemplate
    { projectName := a.projectName
      agent := a.agent
      layout := layoutSnapshot
      intakeNotes := intakeNotes
      migrationBriefRelPath := migrationBriefRelPath }
  let fs10 := promptResult.1
  let metadata : PersistencyMetadata :=
    { projectName := a.projectName
      projectPath := joinPath a.projectPath
      agent := a.agent
      defaultModel := a.defaultModel
      persistencyDir := relChild a.projectPath persistencyPath
      prodBranch := a.truthBranch
      snapshotRef := a.truthCommit
      updatedAt := a.nowMs
      installMethod := a.installMethod
      assets :=
        some (copiedAssets.map (fun t => relChild a.projectPath t))
      legacySources := metadataLegacySources legacySources2
      intakeNotes :=
        if intakeNotes.data.isEmpty then none else some intakeNotes
      freshness := some metrics }
  let st2 := writeMetadata { text := fs10, meta := st.meta } a.projectPath
    persistencyPath metadata
  let fs11 :=
    if a.logHistory then
      let t1 := writeLogEntry st2.text persistencyPath a.logStamp
        ("Refreshed by ai-persistency-layer on " ++ a.truthBranch ++
          " (commit " ++ take7 a.truthCommit ++ ")")
      if legacySources2.isEmpty then t1
      else
        writeLogEntry t1 persistencyPath a.logStamp
          ("Legacy sources to reconcile: " ++
            String.intercalate ", " legacySources2)
    else fsRemove st2.text (persistencyPath ++ [DEFAULT_LOG_FILE])
  { text := fs11, meta := st2.meta }

/-! ## Supporting lemmas -/

theorem append_ne_of_ne (r : FPath) {u v : FPath} (h : u ≠ v) :
    r ++ u ≠ r ++ v :=
  fun he => h (List.append_cancel_left he)

theorem string_self_ne_append {s t : String} (ht : t.data ≠ []) :
    s ≠ s ++ t := by
  intro he
  apply ht
  have hd : s.data = s.data ++ t.data := by
    rw [← String.data_append s t, ← he]
  exact (List.self_eq_append_right.mp hd)

theorem underDir_append_left (r a b : FPath) :
    underDir (r ++ a) (r ++ b) = underDir a b := by
  induction r with
  | nil => rfl
  | cons x xs ih => simp [underDir, ih]

theorem underDir_refl_append (d r : FPath) :
    underDir d (d ++ r) = true := by
  induction d with
  | nil => rfl
  | cons x xs ih => simp [underDir, ih]

theorem underDir_mono {b e q : FPath} (h : underDir (b ++ e) q = true) :
    underDir b q = true := by
  induction b generalizing q with
  | nil => rfl
  | cons x xs ih =>
    cases q with
    | nil => simp [underDir] at h
    | cons y ys =>
      simp only [List.cons_append, underDir, Bool.and_eq_true] at h ⊢
      exact ⟨h.1, ih h.2⟩

theorem fsWrite_frame {fs : TextFS} {p q : FPath} {c : String}
    (h : q ≠ p) : fsWrite fs p c q = fs q := by
  simp [fsWrite, h]

theorem fsWrite_self (fs : TextFS) (p : FPath) (c : String) :
    fsWrite fs p c p = some c := by
  simp [fsWrite]

theorem fsRemove_frame {fs : TextFS} {p q : FPath} (h : q ≠ p) :
    fsRemove fs p q = fs q := by
  simp [fsRemove, h]

theorem cpTree_frame {fs : TextFS} {src dst q : FPath}
    (h : ¬ underDir dst q = true) : cpTree fs src dst q = fs q := by
  simp [cpTree, h]

theorem cpTree_stage (fs : TextFS) (src dst rel : FPath) {c : String}
    (h : fs (src ++ rel) = some c) : cpTree fs src dst (dst ++ rel) = some c := by
  simp [cpTree, underDir_refl_append, List.drop_left, h]

theorem safeWrite_frame {fs : TextFS} {p q : FPath} {c : String}
    {force : Bool} (h : q ≠ p) : safeWrite fs p c force q = fs q := by
  unfold safeWrite safeWriteFile
  cases hf : fs p with
  | some v => cases force <;> simp [fsWrite, h]
  | none => simp [fsWrite, h]

theorem safeWrite_self (fs : TextFS) (p : FPath) (c : String)
    (force : Bool) :
    safeWrite fs p c force p =
      if (fs p).isSome && !force then fs p else some c := by
  unfold safeWrite safeWriteFile
  cases hf : fs p with
  | some v => cases force <;> simp [fsWrite, hf]
  | none => simp [fsWrite]

theorem safeWrite_true_self (fs : TextFS) (p : FPath) (c : String) :
    safeWrite fs p c true p = some c := by
  rw [safeWrite_self]
  simp

theorem metaWrite_self (m : MetaFS) (p : FPath) (md : PersistencyMetadata) :
    metaWrite m p md p = some md := by
  simp [metaWrite]

theorem writeLogEntry_frame {fs : TextFS} {layer q : FPath}
    {stamp message : String} (h : q ≠ layer ++ [DEFAULT_LOG_FILE]) :
    writeLogEntry fs layer stamp message q = fs q := by
  unfold writeLogEntry
  exact fsWrite_frame h

theorem copyAssets_frame {layer q : FPath}
    (h : ¬ underDir (layer ++ ["ai-meta", "assets"]) q = true) :
    ∀ (assets : List AssetInput) (fs : TextFS),
      (copyAssets fs layer assets).1 q = fs q := by
  intro assets
  induction assets with
  | nil => intro fs; rfl
  | cons a rest ih =>
    intro fs
    unfold copyAssets
    by_cases hf : a.found = true
    · simp only [hf, if_true]
      have htarget : ¬ underDir (layer ++ ["ai-meta", "assets", a.base]) q
          = true := by
        intro hu
        apply h
        have : layer ++ ["ai-meta", "assets", a.base] =
            (layer ++ ["ai-meta", "assets"]) ++ [a.base] := by
          simp
        rw [this] at hu
        exact underDir_mono hu
      rw [ih (cpTree fs a.src (layer ++ ["ai-meta", "assets", a.base]))]
      exact cpTree_frame htarget
    · simp only [Bool.not_eq_true] at hf
      simp only [hf, Bool.false_eq_true, if_false]
      exact ih fs

theorem leadsWith_iff (n h : List Char) :
    leadsWith n h = true ↔ n <+: h := by
  induction n generalizing h with
  | nil => simp [leadsWith]
  | cons a as ih =>
    cases h with
    | nil =>
      simp [leadsWith]
    | cons b bs =>
      simp only [leadsWith, Bool.and_eq_true, decide_eq_true_eq,
        List.cons_prefix_cons, ih]

theorem strIncludes_iff (h n : List Char) :
    strIncludes h n = true ↔ n <:+: h := by
  induction h with
  | nil =>
    simp [strIncludes, List.isEmpty_iff, List.infix_nil]
  | cons b bs ih =>
    simp only [strIncludes, Bool.or_eq_true, leadsWith_iff, ih,
      List.infix_cons_iff]

theorem classifyExtras_eq_filter (found : Bool) (content : String)
    (l : List String) :
    classifyExtras found content l =
      (l.filter (fun d => found && includesStr content d),
       l.filter (fun d => !(found && includesStr content d))) := by
  induction l with
  | nil => rfl
  | cons d rest ih =>
    unfold classifyExtras
    rw [ih]
    rcases Bool.eq_false_or_eq_true found with hf | hf <;>
      rcases Bool.eq_false_or_eq_true (includesStr content d) with hi | hi <;>
        simp [List.filter_cons, hf, hi]

/-! ## Claim theorems -/

/-- C5: for every layer path that does not exist on disk (the `readdir`
call fails), layout analysis returns an empty directory list, no extra
directories (referenced or unreferenced), and all three canonical domain
names (`functional`, `technical`, `ai-meta`) marked as missing. -/
theorem claim_C5_missing_layer_analysis (bootstrapRead : Option String) :
    analyzePersistencyLayout none bootstrapRead =
      { directories := []
        extraDirectories := []
        referencedExtras := []
        unreferencedExtras := []
        missingCanonicalDirs := ["functional", "technical", "ai-meta"]
        bootstrapFound := false } := rfl

/-- C4: when the layer listing succeeds and the bootstrap document is
readable, every extraneous directory is classified as referenced exactly
when its name is a literal substring (`List.IsInfix` of the character
sequences) of the bootstrap text, and as unreferenced otherwise; both
classes are drawn from the extra-directory list. -/
theorem claim_C4_extras_classification (dirs : List String)
    (content : String) :
    (∀ d ∈ (analyzePersistencyLayout (some dirs)
        (some content)).extraDirectories,
      (d ∈ (analyzePersistencyLayout (some dirs)
          (some content)).referencedExtras ↔ d.data <:+: content.data) ∧
      (d ∈ (analyzePersistencyLayout (some dirs)
          (some content)).unreferencedExtras ↔
        ¬ d.data <:+: content.data)) ∧
    (∀ d ∈ (analyzePersistencyLayout (some dirs)
        (some content)).referencedExtras,
      d ∈ (analyzePersistencyLayout (some dirs)
        (some content)).extraDirectories) ∧
    (∀ d ∈ (analyzePersistencyLayout (some dirs)
        (some content)).unreferencedExtras,
      d ∈ (analyzePersistencyLayout (some dirs)
        (some content)).extraDirectories) := by
  simp only [analyzePersistencyLayout, Option.isSome_some, Option.getD_some,
    classifyExtras_eq_filter, Bool.true_and]
  refine ⟨?_, ?_, ?_⟩
  · intro d hd
    constructor
    · rw [List.mem_filter]
      simp only [hd, true_and]
      rw [← strIncludes_iff]
      exact Iff.rfl
    · rw [List.mem_filter]
      simp only [hd, true_and]
      rw [← strIncludes_iff content.data d.data]
      simp [includesStr]
  · intro d hd
    exact (List.mem_filter.mp hd).1
  · intro d hd
    exact (List.mem_filter.mp hd).1

/-- C4 witness: a layer with extras `notes` (named in the bootstrap text)
and `tmp` (not named) classifies them as referenced and unreferenced
respectively. -/
theorem claim_C4_extras_classification_witness :
    ("notes" ∈ (analyzePersistencyLayout
        (some ["functional", "notes", "tmp"])
        (some "see notes here")).referencedExtras) ∧
    ("tmp" ∈ (analyzePersistencyLayout
        (some ["functional", "notes", "tmp"])
        (some "see notes here")).unreferencedExtras) := by
  have h := claim_C4_extras_classification ["functional", "notes", "tmp"]
    "see notes here"
  exact ⟨((h.1 "notes" (by decide)).1).mpr (by decide),
    ((h.1 "tmp" (by decide)).2).mpr (by decide)⟩

/-- C10: whenever the layer listing succeeds, `referencedExtras` and
`unreferencedExtras` are disjoint and together are exactly the members of
`extraDirectories`; when the bootstrap document cannot be read, every
extra directory lands in `unreferencedExtras`. -/
theorem claim_C10_extras_partition (dirs : List String)
    (bootstrapRead : Option String) :
    (∀ d, d ∈ (analyzePersistencyLayout (some dirs)
        bootstrapRead).extraDirectories ↔
      (d ∈ (analyzePersistencyLayout (some dirs)
          bootstrapRead).referencedExtras ∨
       d ∈ (analyzePersistencyLayout (some dirs)
          bootstrapRead).unreferencedExtras)) ∧
    (∀ d, ¬ (d ∈ (analyzePersistencyLayout (some dirs)
        bootstrapRead).referencedExtras ∧
      d ∈ (analyzePersistencyLayout (some dirs)
        bootstrapRead).unreferencedExtras)) ∧
    (bootstrapRead = none →
      (analyzePersistencyLayout (some dirs) bootstrapRead).referencedExtras
          = [] ∧
      (analyzePersistencyLayout (some dirs)
          bootstrapRead).unreferencedExtras =
        (analyzePersistencyLayout (some dirs)
          bootstrapRead).extraDirectories) := by
  simp only [analyzePersistencyLayout, classifyExtras_eq_filter]
  refine ⟨?_, ?_, ?_⟩
  · intro d
    constructor
    · intro hd
      by_cases hc : (bootstrapRead.isSome &&
          includesStr (bootstrapRead.getD "") d) = true
      · exact Or.inl (List.mem_filter.mpr ⟨hd, hc⟩)
      · refine Or.inr (List.mem_filter.mpr ⟨hd, ?_⟩)
        simp only [Bool.not_eq_true] at hc
        simp [hc]
    · intro hd
      rcases hd with hd | hd
      · exact (List.mem_filter.mp hd).1
      · exact (List.mem_filter.mp hd).1
  · intro d hd
    have h1 := (List.mem_filter.mp hd.1).2
    have h2 := (List.mem_filter.mp hd.2).2
    rw [h1] at h2
    simp at h2
  · intro hnone
    subst hnone
    constructor
    · simp [List.filter_eq_nil_iff]
    · simp

/-- C10 witness: one extra directory, unreadable bootstrap. -/
theorem claim_C10_extras_partition_witness :
    ((analyzePersistencyLayout (some ["functional", "stray"])
        none).referencedExtras = [] ∧
      (analyzePersistencyLayout (some ["functional", "stray"])
        none).unreferencedExtras =
      (analyzePersistencyLayout (some ["functional", "stray"])
        none).extraDirectories) ∧
    ("stray" ∈ (analyzePersistencyLayout (some ["functional", "stray"])
        none).unreferencedExtras) := by
  have h := claim_C10_extras_partition ["functional", "stray"] none
  refine ⟨h.2.2 rfl, ?_⟩
  have hm := (h.1 "stray").mp (by decide)
  rcases hm with hm | hm
  · rw [(h.2.2 rfl).1] at hm
    exact absurd hm (by decide)
  · exact hm

/-- C9: `commitsSinceTruth` is passed through unchanged, a missing
previous record (or missing timestamp) yields `daysSinceUpdate = 0`,
`daysSinceUpdate` is never negative, and a record exactly ten days old
with a supplied distance of 42 yields `{daysSinceUpdate := 10,
commitsSinceTruth := 42}`. -/
theorem claim_C9_freshness_metrics :
    (∀ now c, computeFreshnessMetrics none now c =
      { daysSinceUpdate := 0, commitsSinceTruth := c }) ∧
    (∀ prev now c,
      (computeFreshnessMetrics prev now c).commitsSinceTruth = c ∧
      0 ≤ (computeFreshnessMetrics prev now c).daysSinceUpdate) ∧
    (∀ now, computeFreshnessMetrics (some (now - 10 * MS_PER_DAY)) now 42 =
      { daysSinceUpdate := 10, commitsSinceTruth := 42 }) := by
  refine ⟨fun now c => rfl, ?_, ?_⟩
  · intro prev now c
    cases prev with
    | none => exact ⟨rfl, le_refl 0⟩
    | some t =>
      exact ⟨rfl, le_max_right _ _⟩
  · intro now
    simp only [computeFreshnessMetrics, dayjsDiffDays]
    have harg : now - (now - 10 * MS_PER_DAY) = 10 * MS_PER_DAY := by ring
    rw [harg]
    have hdiv : absFloorDiv (10 * MS_PER_DAY) MS_PER_DAY = 10 := by decide
    rw [hdiv]
    rfl

/-- The six conditional-write targets of `writeDomainFoundations` paired
with their generated contents. -/
def domainFoundationTargets (persistencyPath : FPath)
    (projectName agent : String)
    (functionalTemplate technicalTemplate aiMetaTemplate : String)
    (functionalIndexTemplate technicalIndexTemplate aiMetaIndexTemplate :
      String) : List (FPath × String) :=
  [(persistencyPath ++ ["functional", "foundation.mdc"],
    replaceAllStr functionalTemplate TPL_PROJECT_NAME projectName),
   (persistencyPath ++ ["functional", "index.mdc"], functionalIndexTemplate),
   (persistencyPath ++ ["technical", "foundation.mdc"],
    replaceAllStr technicalTemplate TPL_PROJECT_NAME projectName),
   (persistencyPath ++ ["technical", "index.mdc"], technicalIndexTemplate),
   (persistencyPath ++ ["ai-meta", "foundation.mdc"],
    replaceAllStr (replaceAllStr aiMetaTemplate TPL_PROJECT_NAME projectName)
      TPL_AGENT agent),
   (persistencyPath ++ ["ai-meta", "index.mdc"], aiMetaIndexTemplate)]

/-- C2: `safeWriteFile` creates a missing target and reports `created`;
leaves an existing target byte-identical without force and reports
`skipped`; overwrites an existing target with force and reports `updated`;
and never touches any other path. Each domain foundation/index artifact
and the config file goes through exactly this discipline with the run's
force flag: the final content is the freshly generated content unless the
file already existed and force was unset, in which case it is the prior
content. -/
theorem claim_C2_conditional_write (fs : TextFS) (p : FPath)
    (content : String) (force : Bool) :
    (fs p = none →
      safeWriteFile fs p content force =
        (WriteStatus.created, fsWrite fs p content) ∧
      (safeWriteFile fs p content force).2 p = some content) ∧
    (∀ c, fs p = some c → force = false →
      safeWriteFile fs p content force = (WriteStatus.skipped, fs)) ∧
    (∀ c, fs p = some c → force = true →
      safeWriteFile fs p content force =
        (WriteStatus.updated, fsWrite fs p content) ∧
      (safeWriteFile fs p content force).2 p = some content) ∧
    (∀ q, q ≠ p → (safeWriteFile fs p content force).2 q = fs q) ∧
    (∀ (persistencyPath : FPath) (projectName agent fT tT mT fI tI mI :
        String) (target : FPath) (rendered : String),
      (target, rendered) ∈ domainFoundationTargets persistencyPath
        projectName agent fT tT mT fI tI mI →
      writeDomainFoundations fs persistencyPath projectName agent
        fT tT mT fI tI mI force target =
        if (fs target).isSome && !force then fs target
        else some rendered) ∧
    (∀ (projectPath persistencyPath : FPath) (projectName agent aiCmd :
        String) (defaultModel : Option String),
      writeConfigEnv fs projectPath persistencyPath projectName agent
        aiCmd defaultModel force (persistencyPath ++ [DEFAULT_CONFIG_FILE])
        =
        if (fs (persistencyPath ++ [DEFAULT_CONFIG_FILE])).isSome && !force
        then fs (persistencyPath ++ [DEFAULT_CONFIG_FILE])
        else some (configEnvContent projectPath persistencyPath projectName
          agent aiCmd defaultModel)) := by
  refine ⟨?_, ?_, ?_, ?_, ?_, ?_⟩
  · intro hnone
    refine ⟨?_, ?_⟩
    · simp [safeWriteFile, hnone]
    · simp [safeWriteFile, hnone, fsWrite]
  · intro c hsome hforce
    simp [safeWriteFile, hsome, hforce]
  · intro c hsome hforce
    refine ⟨?_, ?_⟩
    · simp [safeWriteFile, hsome, hforce]
    · simp [safeWriteFile, hsome, hforce, fsWrite]
  · intro q hq
    exact safeWrite_frame hq
  · intro layer pn ag fT tT mT fI tI mI target rendered hmem
    simp only [domainFoundationTargets, List.mem_cons,
      List.not_mem_nil, or_false] at hmem
    rcases hmem with h | h | h | h | h | h <;>
      (injection h with ht hc; subst ht; subst hc;
       simp only [writeDomainFoundations])
    · rw [safeWrite_frame (append_ne_of_ne _ (by decide)),
        safeWrite_frame (append_ne_of_ne _ (by decide)),
        safeWrite_frame (append_ne_of_ne _ (by decide)),
        safeWrite_frame (append_ne_of_ne _ (by decide)),
        safeWrite_frame (append_ne_of_ne _ (by decide)),
        safeWrite_self]
    · rw [safeWrite_frame (append_ne_of_ne _ (by decide)),
        safeWrite_frame (append_ne_of_ne _ (by decide)),
        safeWrite_frame (append_ne_of_ne _ (by decide)),
        safeWrite_frame (append_ne_of_ne _ (by decide)),
        safeWrite_self,
        safeWrite_frame (append_ne_of_ne _ (by decide))]
    · rw [safeWrite_frame (append_ne_of_ne _ (by decide)),
        safeWrite_frame (append_ne_of_ne _ (by decide)),
        safeWrite_frame (append_ne_of_ne _ (by decide)),
        safeWrite_self,
        safeWrite_frame (append_ne_of_ne _ (by decide)),
        safeWrite_frame (append_ne_of_ne _ (by decide))]
    · rw [safeWrite_frame (append_ne_of_ne _ (by decide)),
        safeWrite_frame (append_ne_of_ne _ (by decide)),
        safeWrite_self,
        safeWrite_frame (append_ne_of_ne _ (by decide)),
        safeWrite_frame (append_ne_of_ne _ (by decide)),
        safeWrite_frame (append_ne_of_ne _ (by decide))]
    · rw [safeWrite_frame (append_ne_of_ne _ (by decide)),
        safeWrite_self,
        safeWrite_frame (append_ne_of_ne _ (by decide)),
        safeWrite_frame (append_ne_of_ne _ (by decide)),
        safeWrite_frame (append_ne_of_ne _ (by decide)),
        safeWrite_frame (append_ne_of_ne _ (by decide))]
    · rw [safeWrite_self,
        safeWrite_frame (append_ne_of_ne _ (by decide)),
        safeWrite_frame (append_ne_of_ne _ (by decide)),
        safeWrite_frame (append_ne_of_ne _ (by decide)),
        safeWrite_frame (append_ne_of_ne _ (by decide)),
        safeWrite_frame (append_ne_of_ne _ (by decide))]
  · intro root layer pn ag cmd dm
    unfold writeConfigEnv
    rw [safeWrite_self]

/-- C2 witness: the three dispositions on concrete stores, and a domain
foundation artifact materialized on an empty store. -/
theorem claim_C2_conditional_write_witness :
    (safeWriteFile (fun _ => none) ["L", "x"] "new" false =
      (WriteStatus.created, fsWrite (fun _ => none) ["L", "x"] "new")) ∧
    (safeWriteFile (fun q => if q = ["L", "x"] then some "old" else none)
      ["L", "x"] "new" false =
      (WriteStatus.skipped,
       fun q => if q = ["L", "x"] then some "old" else none)) ∧
    ((safeWriteFile (fun q => if q = ["L", "x"] then some "old" else none)
      ["L", "x"] "new" true).2 ["L", "x"] = some "new") ∧
    (writeDomainFoundations (fun _ => none) ["L"] "proj" "codex"
      "fT" "tT" "mT" "fI" "tI" "mI" false
      (["L"] ++ ["functional", "index.mdc"]) = some "fI") := by
  refine ⟨?_, ?_, ?_, ?_⟩
  · exact ((claim_C2_conditional_write (fun _ => none) ["L", "x"] "new"
      false).1 rfl).1
  · exact (claim_C2_conditional_write
      (fun q => if q = ["L", "x"] then some "old" else none)
      ["L", "x"] "new" false).2.1 "old" (by decide) rfl
  · exact ((claim_C2_conditional_write
      (fun q => if q = ["L", "x"] then some "old" else none)
      ["L", "x"] "new" true).2.2.1 "old" (by decide) rfl).2
  · have h := (claim_C2_conditional_write (fun _ => none) ["L", "x"] "new"
      false).2.2.2.2.1 ["L"] "proj" "codex" "fT" "tT" "mT" "fI" "tI" "mI"
      (["L"] ++ ["functional", "index.mdc"]) "fI" (by decide)
    rw [h]
    decide

/-- C3: the run-derived artifacts are written unconditionally: after
`writeMigrationBrief`, `writeUpsertPrompt` and `writeMetadata` the target
holds exactly this run's generated content, whatever was there before
(none of these writers takes the force flag; they all call the writer with
`force = true`, which writes in both the present and the absent case). -/
theorem claim_C3_unconditional_run_artifacts :
    (∀ (fs : TextFS) (layer : FPath) (template : String)
        (context : BriefContext),
      writeMigrationBrief fs layer template context
        (layer ++ ["ai-meta", "migration-brief.mdc"]) =
        some (renderMigrationBrief template context)) ∧
    (∀ (fs : TextFS) (root : FPath) (relDir template : String)
        (context : UpsertContext),
      (writeUpsertPrompt fs root relDir template context).1
        (root ++ [UPSERT_PROMPT_FILE]) =
        some (renderUpsertPrompt template relDir context)) ∧
    (∀ (st : Store) (root layer : FPath) (md : PersistencyMetadata),
      (writeMetadata st root layer md).meta
        (layer ++ [PERSISTENCY_METADATA_FILE]) = some md) := by
  refine ⟨?_, ?_, ?_⟩
  · intro fs layer template context
    unfold writeMigrationBrief
    exact safeWrite_true_self _ _ _
  · intro fs root relDir template context
    unfold writeUpsertPrompt
    exact safeWrite_true_self _ _ _
  · intro st root layer md
    unfold writeMetadata
    exact metaWrite_self _ _ _

/-- C6: with metadata recording persistency directory `custom-ai` (as a
run with explicit directory `custom-ai` produces, since the run stores
`path.relative(projectPath, persistencyPath)`), `writeMetadata` leaves the
pointer file holding exactly the line `custom-ai`, `readPersistencyPointer`
reads it back, and a second invocation with no explicit directory argument
resolves to `custom-ai`. -/
theorem claim_C6_pointer_convergence (st0 : Store) (root : FPath)
    (md : PersistencyMetadata)
    (hdir : md.persistencyDir = "custom-ai")
    (hptr : st0.text (root ++ [PERSISTENCY_POINTER_FILE]) = none) :
    ((writeMetadata st0 root (root ++ ["custom-ai"]) md).text
      (root ++ [PERSISTENCY_POINTER_FILE]) = some ("custom-ai" ++ "\n")) ∧
    (readPersistencyPointer (writeMetadata st0 root (root ++ ["custom-ai"])
      md) root = some "custom-ai") ∧
    ((applyMetadataDefaults (writeMetadata st0 root (root ++ ["custom-ai"])
      md) root none false).persistencyDir = "custom-ai") := by
  have h1 : (writeMetadata st0 root (root ++ ["custom-ai"]) md).text
      (root ++ [PERSISTENCY_POINTER_FILE]) = some ("custom-ai" ++ "\n") := by
    simp only [writeMetadata, hdir]
    rw [if_neg (by decide)]
    exact fsWrite_self _ _ _
  have h2 : readPersistencyPointer
      (writeMetadata st0 root (root ++ ["custom-ai"]) md) root =
      some "custom-ai" := by
    unfold readPersistencyPointer
    rw [h1]
    decide
  refine ⟨h1, h2, ?_⟩
  simp only [applyMetadataDefaults]
  rw [if_neg (by decide), if_neg (by decide), h2]
  simp only [Option.getD_some, firstMeta, writeMetadata, metaWrite]
  simp [hdir]

/-- A metadata record whose directory field is `custom-ai`, as the first
run writes it. -/
def mdCustomAi : PersistencyMetadata :=
  { projectName := "proj"
    projectPath := "/r"
    agent := "codex"
    persistencyDir := "custom-ai"
    prodBranch := "main"
    snapshotRef := "c0ffee0"
    updatedAt := 0 }

/-- C6 witness: the round trip on an initially empty project root. -/
theorem claim_C6_pointer_convergence_witness :
    ((writeMetadata { text := fun _ => none, meta := fun _ => none } ["r"]
      (["r"] ++ ["custom-ai"]) mdCustomAi).text
      (["r"] ++ [PERSISTENCY_POINTER_FILE]) = some ("custom-ai" ++ "\n")) ∧
    (readPersistencyPointer (writeMetadata
      { text := fun _ => none, meta := fun _ => none } ["r"]
      (["r"] ++ ["custom-ai"]) mdCustomAi) ["r"] = some "custom-ai") ∧
    ((applyMetadataDefaults (writeMetadata
      { text := fun _ => none, meta := fun _ => none } ["r"]
      (["r"] ++ ["custom-ai"]) mdCustomAi) ["r"] none
      false).persistencyDir = "custom-ai") :=
  claim_C6_pointer_convergence
    { text := fun _ => none, meta := fun _ => none } ["r"] mdCustomAi rfl rfl

/-- A metadata record left at the project root naming a different
directory. -/
def mdOtherY : PersistencyMetadata :=
  { projectName := "proj"
    projectPath := "/r"
    agent := "codex"
    persistencyDir := "other-y"
    prodBranch := "main"
    snapshotRef := "c0ffee0"
    updatedAt := 0 }

/-- A store with no pointer file and a metadata record at the project
root. -/
def rootMetaStore : Store :=
  { text := fun _ => none
    meta := fun p =>
      if p = ["r", PERSISTENCY_METADATA_FILE] then some mdOtherY else none }

/-- C7 counterexample: with `--persistency-dir custom-x` supplied
explicitly but a readable metadata record at the project root recording
`other-y`, the resolved directory is `other-y`, not the explicit
argument: the metadata record takes precedence over the whole
explicit-argument → pointer → default chain
(`applyMetadataDefaults`, `part_006` line 259). -/
theorem claim_C7_counterexample :
    (applyMetadataDefaults rootMetaStore ["r"] (some "custom-x")
      true).persistencyDir = "other-y" ∧
    ¬ (applyMetadataDefaults rootMetaStore ["r"] (some "custom-x")
      true).persistencyDir = "custom-x" := by
  constructor
  · decide
  · decide

/-- C7 (amended): when no metadata record is readable (neither beneath
the candidate directory nor at the project root), the directory is
resolved by the claimed chain: an explicitly supplied argument is used
verbatim; otherwise a present, non-empty (trimmed) pointer value is used;
otherwise the default `ai`. When a metadata record is found, its
`persistencyDir` wins instead (see the counterexample). -/
theorem claim_C7_resolution_chain (st : Store) (root : FPath)
    (flagDir : Option String) (provided : Bool)
    (hnometa : ∀ p, st.meta p = none) :
    (provided = true →
      (applyMetadataDefaults st root flagDir provided).persistencyDir =
        flagDir.getD DEFAULT_PERSISTENCY_DIR) ∧
    (provided = false →
      (applyMetadataDefaults st root flagDir provided).persistencyDir =
        (readPersistencyPointer st root).getD
          (flagDir.getD DEFAULT_PERSISTENCY_DIR)) := by
  constructor
  · intro hp
    subst hp
    simp [applyMetadataDefaults, firstMeta, hnometa]
  · intro hp
    subst hp
    simp only [applyMetadataDefaults, firstMeta, hnometa]
    cases readPersistencyPointer st root <;> simp

/-- A store holding only a pointer file with surrounding whitespace. -/
def ptrOnlyStore : Store :=
  { text := fun q =>
      if q = ["r", PERSISTENCY_POINTER_FILE] then some (" custom-ai \n")
      else none
    meta := fun _ => none }

/-- C7 amended-claim witness: explicit argument verbatim, trimmed pointer
value, and the `ai` default, each on a concrete store. -/
theorem claim_C7_resolution_chain_witness :
    ((applyMetadataDefaults
      { text := fun _ => none, meta := fun _ => none } ["r"]
      (some "explicit-dir") true).persistencyDir = "explicit-dir") ∧
    ((applyMetadataDefaults ptrOnlyStore ["r"] none
      false).persistencyDir = "custom-ai") ∧
    ((applyMetadataDefaults
      { text := fun _ => none, meta := fun _ => none } ["r"] none
      false).persistencyDir = "ai") := by
  refine ⟨?_, ?_, ?_⟩
  · have h := (claim_C7_resolution_chain
      { text := fun _ => none, meta := fun _ => none } ["r"]
      (some "explicit-dir") true (fun _ => rfl)).1 rfl
    rw [h]
    rfl
  · have h := (claim_C7_resolution_chain ptrOnlyStore ["r"] none false
      (fun _ => rfl)).2 rfl
    rw [h]
    decide
  · have h := (claim_C7_resolution_chain
      { text := fun _ => none, meta := fun _ => none } ["r"] none false
      (fun _ => rfl)).2 rfl
    rw [h]
    decide

/-- C8: with a previous-layer import path supplied, if it exists its whole
tree is staged under the fresh timestamped subdirectory of
`ai-meta/legacy` and that directory's project-relative path is appended to
the legacy-sources list (so it appears in the `legacySources` recorded in
metadata, which drops only the leading layer-self entry); if it does not
exist, nothing is staged, the warning branch runs, and the block returns
normally (the `catch` swallows the failure, so the run continues). -/
theorem claim_C8_legacy_import (fs : TextFS) (root layer : FPath)
    (prevLayer : Option FPath) (p : FPath) (prevExists : Bool)
    (stamp : String) (sources : List String)
    (hprev : prevLayer = some p) :
    (prevExists = true →
      (stagePrevLayer fs root layer prevLayer prevExists stamp
          sources).2.1 =
        sources ++ [relChild root (layer ++ ["ai-meta", "legacy", stamp])] ∧
      (stagePrevLayer fs root layer prevLayer prevExists stamp
          sources).2.2 = false ∧
      (∀ rel c, fs (p ++ rel) = some c →
        (stagePrevLayer fs root layer prevLayer prevExists stamp
            sources).1 ((layer ++ ["ai-meta", "legacy", stamp]) ++ rel) =
          some c) ∧
      (∀ s0, sources = [s0] →
        metadataLegacySources (stagePrevLayer fs root layer prevLayer
            prevExists stamp sources).2.1 =
          some [relChild root (layer ++ ["ai-meta", "legacy", stamp])])) ∧
    (prevExists = false →
      (stagePrevLayer fs root layer prevLayer prevExists stamp
          sources).1 = fs ∧
      (stagePrevLayer fs root layer prevLayer prevExists stamp
          sources).2.1 = sources ∧
      (stagePrevLayer fs root layer prevLayer prevExists stamp
          sources).2.2 = true) := by
  subst hprev
  constructor
  · intro hex
    subst hex
    refine ⟨rfl, rfl, ?_, ?_⟩
    · intro rel c hc
      simp only [stagePrevLayer, if_true]
      exact cpTree_stage fs p _ rel hc
    · intro s0 hs0
      subst hs0
      simp [stagePrevLayer, metadataLegacySources]
  · intro hex
    subst hex
    exact ⟨rfl, rfl, rfl⟩

/-- C8 witness: a one-file previous layer staged into
`ai/ai-meta/legacy/20240101-000000`, and a missing import path leaving
the store untouched with the warning branch taken. -/
theorem claim_C8_legacy_import_witness :
    ((stagePrevLayer
      (fun q => if q = ["old", "doc.mdc"] then some "legacy doc" else none)
      ["r"] ["r", "ai"] (some ["old"]) true "20240101-000000"
      ["ai"]).2.1 =
      ["ai"] ++ [relChild ["r"]
        (["r", "ai"] ++ ["ai-meta", "legacy", "20240101-000000"])]) ∧
    ((stagePrevLayer
      (fun q => if q = ["old", "doc.mdc"] then some "legacy doc" else none)
      ["r"] ["r", "ai"] (some ["old"]) true "20240101-000000"
      ["ai"]).1
      ((["r", "ai"] ++ ["ai-meta", "legacy", "20240101-000000"]) ++
        ["doc.mdc"]) = some "legacy doc") ∧
    (metadataLegacySources (stagePrevLayer
      (fun q => if q = ["old", "doc.mdc"] then some "legacy doc" else none)
      ["r"] ["r", "ai"] (some ["old"]) true "20240101-000000"
      ["ai"]).2.1 =
      some ["ai/ai-meta/legacy/20240101-000000"]) ∧
    ((stagePrevLayer
      (fun q => if q = ["old", "doc.mdc"] then some "legacy doc" else none)
      ["r"] ["r", "ai"] (some ["missing"]) false "20240101-000000"
      ["ai"]).1 =
      (fun q => if q = ["old", "doc.mdc"] then some "legacy doc" else none))
      ∧
    ((stagePrevLayer
      (fun q => if q = ["old", "doc.mdc"] then some "legacy doc" else none)
      ["r"] ["r", "ai"] (some ["missing"]) false "20240101-000000"
      ["ai"]).2.2 = true) := by
  have hyes := claim_C8_legacy_import
    (fun q => if q = ["old", "doc.mdc"] then some "legacy doc" else none)
    ["r"] ["r", "ai"] (some ["old"]) ["old"] true "20240101-000000"
    ["ai"] rfl
  have hno := claim_C8_legacy_import
    (fun q => if q = ["old", "doc.mdc"] then some "legacy doc" else none)
    ["r"] ["r", "ai"] (some ["missing"]) ["missing"] false
    "20240101-000000" ["ai"] rfl
  refine ⟨(hyes.1 rfl).1, ?_, ?_, (hno.2 rfl).1, (hno.2 rfl).2.2⟩
  · exact (hyes.1 rfl).2.2.1 ["doc.mdc"] "legacy doc" (by decide)
  · rw [(hyes.1 rfl).2.2.2 "ai" rfl]
    decide

theorem cons_ne_of_head {x y : String} {u v : FPath} (h : x ≠ y) :
    x :: u ≠ y :: v := by
  intro he
  injection he with h1 _
  exact h h1

theorem cons_ne_of_tail {x y : String} {u v : FPath} (h : u ≠ v) :
    x :: u ≠ y :: v := by
  intro he
  injection he with _ h2
  exact h h2

theorem underDir_cons_ne {x y : String} (u v : FPath) (h : x ≠ y) :
    underDir (x :: u) (y :: v) = false := by
  simp [underDir, h]

theorem underDir_not_head {x : String} (u : FPath) {rest : FPath}
    (h : ∀ t, rest ≠ x :: t) : underDir (x :: u) rest = false := by
  cases rest with
  | nil => rfl
  | cons r rs =>
    exact underDir_cons_ne u rs (fun he => h rs (by rw [he]))

theorem writeDomainFoundations_frame {fs : TextFS} {layer : FPath}
    {pn ag fT tT mT fI tI mI : String} {force : Bool} {q : FPath}
    (h1 : q ≠ layer ++ ["functional", "foundation.mdc"])
    (h2 : q ≠ layer ++ ["functional", "index.mdc"])
    (h3 : q ≠ layer ++ ["technical", "foundation.mdc"])
    (h4 : q ≠ layer ++ ["technical", "index.mdc"])
    (h5 : q ≠ layer ++ ["ai-meta", "foundation.mdc"])
    (h6 : q ≠ layer ++ ["ai-meta", "index.mdc"]) :
    writeDomainFoundations fs layer pn ag fT tT mT fI tI mI force q =
      fs q := by
  simp only [writeDomainFoundations]
  rw [safeWrite_frame h6, safeWrite_frame h5, safeWrite_frame h4,
    safeWrite_frame h3, safeWrite_frame h2, safeWrite_frame h1]

theorem writeBootstrap_frame {fs : TextFS} {layer : FPath}
    {t pn ag tb tc : String} {metrics : FreshnessMetrics}
    {dm : Option String} {force : Bool} {q : FPath}
    (h : q ≠ layer ++ [DEFAULT_BOOTSTRAP_FILE]) :
    writeBootstrap fs layer t pn ag tb tc metrics dm force q = fs q := by
  simp only [writeBootstrap]
  exact safeWrite_frame h

theorem writeConfigEnv_frame {fs : TextFS} {root layer : FPath}
    {pn ag cmd : String} {dm : Option String} {force : Bool} {q : FPath}
    (h : q ≠ layer ++ [DEFAULT_CONFIG_FILE]) :
    writeConfigEnv fs root layer pn ag cmd dm force q = fs q := by
  simp only [writeConfigEnv]
  exact safeWrite_frame h

theorem writeAntiDriftScripts_frame {fs : TextFS} {root : FPath}
    {rel chk rfr : String} {force : Bool} {q : FPath}
    (h9 : q ≠ root ++ ["scripts", "ai", "check-stale.ts"])
    (h10 : q ≠ root ++ ["scripts", "ai", "refresh-layer.ts"]) :
    writeAntiDriftScripts fs root rel chk rfr force q = fs q := by
  simp only [writeAntiDriftScripts]
  rw [safeWrite_frame h10, safeWrite_frame h9]

theorem configChoice_frame {fs : TextFS} {root layer : FPath}
    {pn ag cmd : String} {dm : Option String} {rel chk rfr : String}
    {force cond : Bool} {q : FPath}
    (h8 : q ≠ layer ++ [DEFAULT_CONFIG_FILE])
    (h9 : q ≠ root ++ ["scripts", "ai", "check-stale.ts"])
    (h10 : q ≠ root ++ ["scripts", "ai", "refresh-layer.ts"]) :
    (if cond = true then
      writeAntiDriftScripts (writeConfigEnv fs root layer pn ag cmd dm
        force) root rel chk rfr force
     else fs) q = fs q := by
  split
  · rw [writeAntiDriftScripts_frame h9 h10, writeConfigEnv_frame h8]
  · rfl

theorem writeStartScript_frame {fs : TextFS} {layer : FPath}
    {script : String} {q : FPath}
    (h : q ≠ layer ++ [DEFAULT_START_SCRIPT]) :
    writeStartScript fs layer script q = fs q := by
  simp only [writeStartScript]
  exact safeWrite_frame h

theorem writeUpsertScript_frame {fs : TextFS} {layer : FPath}
    {script : String} {q : FPath}
    (h : q ≠ layer ++ [DEFAULT_UPSERT_SCRIPT]) :
    writeUpsertScript fs layer script q = fs q := by
  simp only [writeUpsertScript]
  exact safeWrite_frame h

theorem writeMigrationBrief_frame {fs : TextFS} {layer : FPath}
    {template : String} {context : BriefContext} {q : FPath}
    (h : q ≠ layer ++ ["ai-meta", "migration-brief.mdc"]) :
    writeMigrationBrief fs layer template context q = fs q := by
  simp only [writeMigrationBrief]
  exact safeWrite_frame h

theorem writeUpsertPrompt_frame {fs : TextFS} {root : FPath}
    {rel template : String} {context : UpsertContext} {q : FPath}
    (h : q ≠ root ++ [UPSERT_PROMPT_FILE]) :
    (writeUpsertPrompt fs root rel template context).1 q = fs q := by
  simp only [writeUpsertPrompt]
  exact safeWrite_frame h

theorem writeMetadata_text_frame {st : Store} {root layer : FPath}
    {md : PersistencyMetadata} {q : FPath}
    (h : q ≠ root ++ [PERSISTENCY_POINTER_FILE]) :
    (writeMetadata st root layer md).text q = st.text q := by
  simp only [writeMetadata]
  exact fsWrite_frame h

theorem stagePrevLayer_frame {fs : TextFS} {root layer : FPath}
    {prev : Option FPath} {pe : Bool} {stamp : String}
    {sources : List String} {q : FPath}
    (h : ¬ underDir (layer ++ ["ai-meta", "legacy", stamp]) q = true) :
    (stagePrevLayer fs root layer prev pe stamp sources).1 q = fs q := by
  cases prev with
  | none => rfl
  | some p =>
    simp only [stagePrevLayer]
    split
    · exact cpTree_frame h
    · rfl

theorem backupChoice_frame {fs : TextFS} {layer root : FPath}
    {base stamp : String} {le cond : Bool} {q : FPath}
    (h : ¬ underDir (root ++ [base ++ "-backup", stamp]) q = true) :
    (if cond = true then backupExistingLayer fs layer root base stamp le
     else (fs, none)).1 q = fs q := by
  split
  · unfold backupExistingLayer
    split
    · exact cpTree_frame h
    · rfl
  · rfl

theorem logStage_frame {fs : TextFS} {layer : FPath}
    {stamp m1 m2 : String} {cond cond2 : Bool} {q : FPath}
    (h : q ≠ layer ++ [DEFAULT_LOG_FILE]) :
    (if cond = true then
       (if cond2 = true then writeLogEntry fs layer stamp m1
        else writeLogEntry (writeLogEntry fs layer stamp m1) layer stamp
          m2)
     else fsRemove fs (layer ++ [DEFAULT_LOG_FILE])) q = fs q := by
  split
  · split
    · exact writeLogEntry_frame h
    · rw [writeLogEntry_frame h, writeLogEntry_frame h]
  · exact fsRemove_frame h

/-- Every path outside the migration run's write and staging targets keeps
its content. -/
theorem migrationRun_text_frame (st : Store) (a : MigRunArgs) (q : FPath)
    (hb : ¬ underDir (a.projectPath ++
      [a.persistencyDir ++ "-backup", a.backupStamp]) q = true)
    (hl : ¬ underDir ((a.projectPath ++ [a.persistencyDir]) ++
      ["ai-meta", "legacy", a.legacyStamp]) q = true)
    (ha : ¬ underDir ((a.projectPath ++ [a.persistencyDir]) ++
      ["ai-meta", "assets"]) q = true)
    (h1 : q ≠ (a.projectPath ++ [a.persistencyDir]) ++
      ["functional", "foundation.mdc"])
    (h2 : q ≠ (a.projectPath ++ [a.persistencyDir]) ++
      ["functional", "index.mdc"])
    (h3 : q ≠ (a.projectPath ++ [a.persistencyDir]) ++
      ["technical", "foundation.mdc"])
    (h4 : q ≠ (a.projectPath ++ [a.persistencyDir]) ++
      ["technical", "index.mdc"])
    (h5 : q ≠ (a.projectPath ++ [a.persistencyDir]) ++
      ["ai-meta", "foundation.mdc"])
    (h6 : q ≠ (a.projectPath ++ [a.persistencyDir]) ++
      ["ai-meta", "index.mdc"])
    (h7 : q ≠ (a.projectPath ++ [a.persistencyDir]) ++
      [DEFAULT_BOOTSTRAP_FILE])
    (h8 : q ≠ (a.projectPath ++ [a.persistencyDir]) ++
      [DEFAULT_CONFIG_FILE])
    (h9 : q ≠ a.projectPath ++ ["scripts", "ai", "check-stale.ts"])
    (h10 : q ≠ a.projectPath ++ ["scripts", "ai", "refresh-layer.ts"])
    (h11 : q ≠ (a.projectPath ++ [a.persistencyDir]) ++
      [DEFAULT_START_SCRIPT])
    (h12 : q ≠ (a.projectPath ++ [a.persistencyDir]) ++
      [DEFAULT_UPSERT_SCRIPT])
    (h13 : q ≠ (a.projectPath ++ [a.persistencyDir]) ++
      ["ai-meta", "migration-brief.mdc"])
    (h14 : q ≠ a.projectPath ++ [UPSERT_PROMPT_FILE])
    (h15 : q ≠ a.projectPath ++ [PERSISTENCY_POINTER_FILE])
    (h16 : q ≠ (a.projectPath ++ [a.persistencyDir]) ++
      [DEFAULT_LOG_FILE]) :
    (migrationRun st a).text q = st.text q := by
  simp only [migrationRun, logStage_frame h16, writeMetadata_text_frame h15,
    writeUpsertPrompt_frame h14, writeMigrationBrief_frame h13,
    writeUpsertScript_frame h12, writeStartScript_frame h11,
    configChoice_frame h8 h9 h10, writeBootstrap_frame h7,
    writeDomainFoundations_frame h1 h2 h3 h4 h5 h6, copyAssets_frame ha,
    stagePrevLayer_frame hl, backupChoice_frame hb]

theorem underDir_cons_self {x : String} (u v : FPath) :
    underDir (x :: u) (x :: v) = underDir u v := by
  simp [underDir]

/-- C1 (amended): the migration CLI (`part_006` `run`) preserves every
hand-authored file inside a canonical domain directory that is not one of
the recognized template filenames and does not sit in the engine's
`ai-meta/legacy` or `ai-meta/assets` staging areas, with or without force.
The bootstrap CLI (`src/src/cli.ts` `run`) does not: it removes the whole
layer tree (`fs.rm(persistencyPath, { recursive: true, force: true })`,
line 216) before recreating it, so such a file is deleted there (see the
counterexample). -/
theorem claim_C1_preservation (st : Store) (a : MigRunArgs) (d : String)
    (rest : FPath)
    (hd : d ∈ CANONICAL_DOMAIN_DIRS)
    (hrest : rest ≠ [])
    (hfound : rest ≠ ["foundation.mdc"])
    (hindex : rest ≠ ["index.mdc"])
    (hbrief : d = "ai-meta" → rest ≠ ["migration-brief.mdc"])
    (hlegacy : d = "ai-meta" → ∀ t, rest ≠ "legacy" :: t)
    (hassets : d = "ai-meta" → ∀ t, rest ≠ "assets" :: t) :
    (migrationRun st a).text
        (a.projectPath ++ a.persistencyDir :: d :: rest) =
      st.text (a.projectPath ++ a.persistencyDir :: d :: rest) := by
  have hq : a.projectPath ++ a.persistencyDir :: d :: rest =
      (a.projectPath ++ [a.persistencyDir]) ++ (d :: rest) := by simp
  have hb : ¬ underDir (a.projectPath ++
      [a.persistencyDir ++ "-backup", a.backupStamp])
      (a.projectPath ++ a.persistencyDir :: d :: rest) = true := by
    rw [underDir_append_left,
      underDir_cons_ne _ _ (Ne.symm (string_self_ne_append (by decide)))]
    simp
  simp only [CANONICAL_DOMAIN_DIRS, List.mem_cons, List.not_mem_nil,
    or_false] at hd
  rcases hd with rfl | rfl | rfl <;>
    (rw [hq]
     refine migrationRun_text_frame st a _ ?_ ?_ ?_ ?_ ?_ ?_ ?_ ?_ ?_ ?_
       ?_ ?_ ?_ ?_ ?_ ?_ ?_ ?_ ?_) <;>
    rw [← hq]
  -- d = "functional"
  · exact hb
  · rw [List.append_assoc, underDir_append_left]
    simp only [List.cons_append, List.nil_append, underDir_cons_self]
    rw [underDir_cons_ne _ _ (by decide)]
    simp
  · rw [List.append_assoc, underDir_append_left]
    simp only [List.cons_append, List.nil_append, underDir_cons_self]
    rw [underDir_cons_ne _ _ (by decide)]
    simp
  · rw [hq]; exact append_ne_of_ne _ (cons_ne_of_tail hfound)
  · rw [hq]; exact append_ne_of_ne _ (cons_ne_of_tail hindex)
  · rw [hq]; exact append_ne_of_ne _ (cons_ne_of_head (by decide))
  · rw [hq]; exact append_ne_of_ne _ (cons_ne_of_head (by decide))
  · rw [hq]; exact append_ne_of_ne _ (cons_ne_of_head (by decide))
  · rw [hq]; exact append_ne_of_ne _ (cons_ne_of_head (by decide))
  · rw [hq]; exact append_ne_of_ne _ (cons_ne_of_tail hrest)
  · rw [hq]; exact append_ne_of_ne _ (cons_ne_of_tail hrest)
  · exact append_ne_of_ne _ (cons_ne_of_tail (cons_ne_of_head (by decide)))
  · exact append_ne_of_ne _ (cons_ne_of_tail (cons_ne_of_head (by decide)))
  · rw [hq]; exact append_ne_of_ne _ (cons_ne_of_tail hrest)
  · rw [hq]; exact append_ne_of_ne _ (cons_ne_of_tail hrest)
  · rw [hq]; exact append_ne_of_ne _ (cons_ne_of_head (by decide))
  · exact append_ne_of_ne _ (cons_ne_of_tail (List.cons_ne_nil _ _))
  · exact append_ne_of_ne _ (cons_ne_of_tail (List.cons_ne_nil _ _))
  · rw [hq]; exact append_ne_of_ne _ (cons_ne_of_tail hrest)
  -- d = "technical"
  · exact hb
  · rw [List.append_assoc, underDir_append_left]
    simp only [List.cons_append, List.nil_append, underDir_cons_self]
    rw [underDir_cons_ne _ _ (by decide)]
    simp
  · rw [List.append_assoc, underDir_append_left]
    simp only [List.cons_append, List.nil_append, underDir_cons_self]
    rw [underDir_cons_ne _ _ (by decide)]
    simp
  · rw [hq]; exact append_ne_of_ne _ (cons_ne_of_head (by decide))
  · rw [hq]; exact append_ne_of_ne _ (cons_ne_of_head (by decide))
  · rw [hq]; exact append_ne_of_ne _ (cons_ne_of_tail hfound)
  · rw [hq]; exact append_ne_of_ne _ (cons_ne_of_tail hindex)
  · rw [hq]; exact append_ne_of_ne _ (cons_ne_of_head (by decide))
  · rw [hq]; exact append_ne_of_ne _ (cons_ne_of_head (by decide))
  · rw [hq]; exact append_ne_of_ne _ (cons_ne_of_tail hrest)
  · rw [hq]; exact append_ne_of_ne _ (cons_ne_of_tail hrest)
  · exact append_ne_of_ne _ (cons_ne_of_tail (cons_ne_of_head (by decide)))
  · exact append_ne_of_ne _ (cons_ne_of_tail (cons_ne_of_head (by decide)))
  · rw [hq]; exact append_ne_of_ne _ (cons_ne_of_tail hrest)
  · rw [hq]; exact append_ne_of_ne _ (cons_ne_of_tail hrest)
  · rw [hq]; exact append_ne_of_ne _ (cons_ne_of_head (by decide))
  · exact append_ne_of_ne _ (cons_ne_of_tail (List.cons_ne_nil _ _))
  · exact append_ne_of_ne _ (cons_ne_of_tail (List.cons_ne_nil _ _))
  · rw [hq]; exact append_ne_of_ne _ (cons_ne_of_tail hrest)
  -- d = "ai-meta"
  · exact hb
  · rw [List.append_assoc, underDir_append_left]
    simp only [List.cons_append, List.nil_append, underDir_cons_self]
    rw [underDir_not_head _ (hlegacy rfl)]
    simp
  · rw [List.append_assoc, underDir_append_left]
    simp only [List.cons_append, List.nil_append, underDir_cons_self]
    rw [underDir_not_head _ (hassets rfl)]
    simp
  · rw [hq]; exact append_ne_of_ne _ (cons_ne_of_head (by decide))
  · rw [hq]; exact append_ne_of_ne _ (cons_ne_of_head (by decide))
  · rw [hq]; exact append_ne_of_ne _ (cons_ne_of_head (by decide))
  · rw [hq]; exact append_ne_of_ne _ (cons_ne_of_head (by decide))
  · rw [hq]; exact append_ne_of_ne _ (cons_ne_of_tail hfound)
  · rw [hq]; exact append_ne_of_ne _ (cons_ne_of_tail hindex)
  · rw [hq]; exact append_ne_of_ne _ (cons_ne_of_tail hrest)
  · rw [hq]; exact append_ne_of_ne _ (cons_ne_of_tail hrest)
  · exact append_ne_of_ne _ (cons_ne_of_tail (cons_ne_of_head (by decide)))
  · exact append_ne_of_ne _ (cons_ne_of_tail (cons_ne_of_head (by decide)))
  · rw [hq]; exact append_ne_of_ne _ (cons_ne_of_tail hrest)
  · rw [hq]; exact append_ne_of_ne _ (cons_ne_of_tail hrest)
  · rw [hq]; exact append_ne_of_ne _ (cons_ne_of_tail (hbrief rfl))
  · exact append_ne_of_ne _ (cons_ne_of_tail (List.cons_ne_nil _ _))
  · exact append_ne_of_ne _ (cons_ne_of_tail (List.cons_ne_nil _ _))
  · rw [hq]; exact append_ne_of_ne _ (cons_ne_of_tail hrest)

/-- A layer holding one hand-authored, non-template file. -/
def handAuthoredStore : Store :=
  { text := fun q =>
      if q = ["proj", "ai", "functional", "notes.mdc"] then some "precious"
      else none
    meta := fun _ => none }

/-- A plain re-run of the bootstrap CLI: no force, no backup, no import,
no assets. -/
def plainCliArgs : CliRunArgs :=
  { projectPath := ["proj"]
    persistencyDir := "ai"
    force := false
    keepBackup := false
    writeConfig := false
    yes := false
    logHistory := false
    layerExists := true
    prevLayer := none
    prevExists := false
    assets := []
    projectName := "proj"
    agent := "codex"
    aiCmd := "codex"
    defaultModel := none
    installMethod := none
    truthBranch := "main"
    snapshotCommit := "abcdef1"
    backupStamp := "20240101-000000"
    legacyStamp := "20240101-000000"
    logStamp := "2024-01-01 00:00:00"
    nowMs := 0
    commitsSinceTruth := 0
    snapshotFile := "snapshot.diff"
    snapshotContent := "S"
    bootstrapTemplate := "B"
    functionalTemplate := "F"
    technicalTemplate := "T"
    aiMetaTemplate := "M"
    legacyManifestTemplate := "L"
    checkStaleTemplate := "C"
    refreshLayerTemplate := "R"
    startScript := "X" }

/-- C1 counterexample: re-running the bootstrap CLI engine
(`src/src/cli.ts` `run`: `fs.rm(persistencyPath, { recursive: true,
force: true })` at line 216, then `ensureBaseLayout` and the writers) on a
layer holding the hand-authored non-template file
`functional/notes.mdc` deletes that file - without the force flag set. -/
theorem claim_C1_counterexample :
    handAuthoredStore.text ["proj", "ai", "functional", "notes.mdc"] =
      some "precious" ∧
    (cliRun handAuthoredStore plainCliArgs).text
      ["proj", "ai", "functional", "notes.mdc"] = none := by
  constructor
  · rfl
  · decide

/-- A plain migration-CLI run over the same layer, with a chosen force
flag. -/
def plainMigArgs (force : Bool) : MigRunArgs :=
  { projectPath := ["proj"]
    persistencyDir := "ai"
    force := force
    keepBackup := false
    writeConfig := false
    yes := false
    logHistory := false
    prevLayer := none
    prevExists := false
    assets := []
    projectName := "proj"
    agent := "codex"
    aiCmd := "codex"
    defaultModel := none
    installMethod := none
    intakeNotes := ""
    truthBranch := "main"
    truthCommit := "abcdef1234"
    backupStamp := "20240101-000000"
    legacyStamp := "20240101-000000"
    logStamp := "2024-01-01 00:00:00"
    nowMs := 0
    commitsSinceTruth := 0
    listing := some ["functional", "technical", "ai-meta"]
    bootstrapTemplate := "B"
    functionalTemplate := "F"
    technicalTemplate := "T"
    aiMetaTemplate := "M"
    functionalIndexTemplate := "FI"
    technicalIndexTemplate := "TI"
    aiMetaIndexTemplate := "MI"
    briefTemplate := "BR"
    upsertTemplate := "U"
    checkStaleTemplate := "C"
    refreshLayerTemplate := "R"
    startScript := "X"
    upsertScript := "Y" }

/-- C1 witness: the hand-authored file `functional/notes.mdc` survives a
migration-CLI re-run on a concrete store, both without and with force. -/
theorem claim_C1_preservation_witness :
    ((migrationRun handAuthoredStore (plainMigArgs false)).text
      (["proj"] ++ "ai" :: "functional" :: ["notes.mdc"]) =
      handAuthoredStore.text
        (["proj"] ++ "ai" :: "functional" :: ["notes.mdc"])) ∧
    ((migrationRun handAuthoredStore (plainMigArgs true)).text
      (["proj"] ++ "ai" :: "functional" :: ["notes.mdc"]) =
      handAuthoredStore.text
        (["proj"] ++ "ai" :: "functional" :: ["notes.mdc"])) := by
  constructor <;>
    exact claim_C1_preservation handAuthoredStore _ "functional"
      ["notes.mdc"] (by decide) (by decide) (by decide) (by decide)
      (fun h => absurd h (by decide)) (fun h => absurd h (by decide))
      (fun h => absurd h (by decide))
